import Mathlib

/-!
Verification of the ssd1677 e-paper display driver core.

The development shallowly embeds the driver's Rust sources:
* `rotation.rs` — the coordinate mapper `apply_rotation`;
* `color.rs` — the tri-color byte encodings;
* `config.rs` — dimensions, rotation and panel wiring configuration;
* `display.rs` — the RAM-window calculator `set_ram_area` and the
  update/refresh engine (`update_with_mode_internal`,
  `update_region_internal`, `refresh_with_mode`, `deep_sleep`, `load_lut`);
* `graphics.rs` — the buffer-mutating graphics wrapper (`clear`,
  `set_pixel`, `draw_iter`).

The hardware transport is modelled the way the repository's own tests model
it (a mock interface that records every command byte and data block and
never fails): a `Display` carries a `trace : List Event` of everything sent
to the chip.  Machine integers (`u8`, `u16`, `u32`, `usize`) are embedded as
`Nat`; every arithmetic operation performed by the driver on the values the
claims range over stays well inside the corresponding machine range, with
saturating addition (`u16::saturating_add`) modelled explicitly.
-/

/-- One byte framed to the controller: either a command byte or a data
block, mirroring `DisplayInterface::send_command` / `send_data`. -/
inductive Event where
  | cmd (c : Nat)
  | data (d : List Nat)
deriving DecidableEq, Repr

/-- Rotation of the display relative to its native orientation
(`config.rs`, `enum Rotation`). -/
inductive Rotation where
  | Rotate0
  | Rotate90
  | Rotate180
  | Rotate270
deriving DecidableEq, Repr

/-- RAM X address unit (`config.rs`, `enum RamXAddressing`). -/
inductive RamXAddressing where
  | Pixels
  | Bytes
deriving DecidableEq, Repr

/-- Refresh mode (`display.rs`, `enum RefreshMode`). -/
inductive RefreshMode where
  | Full
  | Partial
  | Fast
deriving DecidableEq, Repr

/-- Deep sleep mode (`display.rs`, `enum DeepSleepMode`). -/
inductive DeepSleepMode where
  | Normal
  | PreserveRam
  | PreserveRamAndAnalog
deriving DecidableEq, Repr

/-- The byte sent with the deep-sleep command (`mode as u8`,
`#[repr(u8)]` values 0x00 / 0x01 / 0x03). -/
def DeepSleepMode.toByte : DeepSleepMode → Nat
  | .Normal => 0x00
  | .PreserveRam => 0x01
  | .PreserveRamAndAnalog => 0x03

/-- Display dimensions (`config.rs`, `struct Dimensions`). -/
structure Dimensions where
  rows : Nat
  cols : Nat
deriving DecidableEq, Repr

/-- The validation performed by `Dimensions::new` (`config.rs`):
`1 ≤ rows ≤ MAX_GATE_OUTPUTS`, `1 ≤ cols ≤ MAX_SOURCE_OUTPUTS`,
`cols` a multiple of 8. -/
def Dimensions.valid (d : Dimensions) : Prop :=
  1 ≤ d.rows ∧ d.rows ≤ 680 ∧ 1 ≤ d.cols ∧ d.cols ≤ 960 ∧ d.cols % 8 = 0

instance (d : Dimensions) : Decidable d.valid := by
  unfold Dimensions.valid; infer_instance

/-- `Dimensions::buffer_size`: `rows * cols / 8`. -/
def Dimensions.buffer_size (d : Dimensions) : Nat :=
  d.rows * d.cols / 8

/-- `Config::rotated_dimensions` (`config.rs`), factored over a bare
`Dimensions` value. -/
def rotatedDims (d : Dimensions) : Rotation → Dimensions
  | .Rotate0 | .Rotate180 => d
  | .Rotate90 | .Rotate270 => ⟨d.cols, d.rows⟩

/-- The coordinate mapper `apply_rotation` (`rotation.rs`): logical
`(x, y)` to `(byte_index, bit_mask)` in a row-major MSB-first bit-packed
buffer of a `width × height` physical panel. -/
def apply_rotation (x y width height : Nat) : Rotation → Nat × Nat
  | .Rotate0 => (x / 8 + width / 8 * y, 0x80 >>> (x % 8))
  | .Rotate90 => ((width - 1 - y) / 8 + width / 8 * x, 0x01 <<< (y % 8))
  | .Rotate180 => (width / 8 * height - 1 - (x / 8 + width / 8 * y), 0x01 <<< (x % 8))
  | .Rotate270 => (y / 8 + (height - 1 - x) * (width / 8), 0x80 >>> (y % 8))

/-- The in-bounds condition for a logical coordinate handed to the mapper:
the drawing layer (`graphics.rs`, `draw_iter`) range-checks `(x, y)`
against the rotated dimensions (`size()` is `rotated_dimensions`) before
calling `set_pixel`/`apply_rotation`; the spec states the mapper's
precondition as `x < width` "or `< height` post-rotation, per variant". -/
def inBounds (width height : Nat) (rot : Rotation) (x y : Nat) : Prop :=
  x < (rotatedDims ⟨height, width⟩ rot).cols ∧ y < (rotatedDims ⟨height, width⟩ rot).rows

instance (width height : Nat) (rot : Rotation) (x y : Nat) :
    Decidable (inBounds width height rot x y) := by
  unfold inBounds; infer_instance

/-- `128 >>> r` is injective on shift amounts below 8 (MSB-first masks). -/
lemma shiftr128_inj : ∀ a < 8, ∀ b < 8, (128 >>> a : Nat) = 128 >>> b → a = b := by
  decide

/-- `1 <<< r` is injective on shift amounts below 8 (LSB-first masks). -/
lemma shiftl1_inj : ∀ a < 8, ∀ b < 8, (1 <<< a : Nat) = 1 <<< b → a = b := by
  decide

/-- A sub-row offset below `k` plus `k` times a row below `h` stays below
`k * h`. -/
lemma addMulLt {a k y h : Nat} (ha : a < k) (hy : y < h) :
    a + k * y < k * h :=
  calc a + k * y < k + k * y := Nat.add_lt_add_right ha _
    _ = k * (y + 1) := by rw [Nat.mul_succ, Nat.add_comm]
    _ ≤ k * h := Nat.mul_le_mul_left k hy

/-- Uniqueness of the `offset + k * row` decomposition when the offset is
below `k`. -/
lemma decompUnique {k a a' b b' : Nat} (ha : a < k) (ha' : a' < k)
    (h : a + k * b = a' + k * b') : a = a' ∧ b = b' := by
  have hk : 0 < k := Nat.lt_of_le_of_lt (Nat.zero_le a) ha
  have hmod : a % k = a' % k := by
    have h1 := congrArg (· % k) h
    simpa [Nat.add_mul_mod_self_left] using h1
  have haa : a = a' := by
    rwa [Nat.mod_eq_of_lt ha, Nat.mod_eq_of_lt ha'] at hmod
  subst haa
  exact ⟨rfl, Nat.eq_of_mul_eq_mul_left hk (Nat.add_left_cancel h)⟩

/-- Dividing a value below `8 * k` by 8 lands below `k`. -/
lemma div8_lt {a k : Nat} (h : a < 8 * k) : a / 8 < k := by omega

/-- C6: for every panel whose width is a multiple of 8 and whose height is
at least 1, and for every rotation, the mapper sends any in-bounds `(x, y)`
to a byte index strictly below `width * height / 8`, and distinct in-bounds
coordinates are sent to distinct `(byte index, bit mask)` pairs. -/
theorem apply_rotation_range_injective (width height : Nat) (rot : Rotation)
    (x y x' y' : Nat) (hw : width % 8 = 0) (hh : 1 ≤ height)
    (hxy : inBounds width height rot x y) :
    (apply_rotation x y width height rot).1 < width * height / 8 ∧
    (inBounds width height rot x' y' →
      apply_rotation x y width height rot = apply_rotation x' y' width height rot →
      x = x' ∧ y = y') := by
  obtain ⟨k, hk⟩ : ∃ k, width = 8 * k := ⟨width / 8, by omega⟩
  subst hk
  have hk8 : 8 * k / 8 = k := by omega
  have htot : 8 * k * height / 8 = k * height := by
    rw [Nat.mul_assoc]
    exact Nat.mul_div_cancel_left _ (by norm_num)
  have hmod8 : ∀ n : Nat, n % 8 < 8 := fun n => Nat.mod_lt n (by norm_num)
  cases rot with
  | Rotate0 =>
    simp only [inBounds, rotatedDims] at hxy
    obtain ⟨hx, hy⟩ := hxy
    simp only [apply_rotation, Prod.mk.injEq, inBounds, rotatedDims, hk8, htot]
    refine ⟨addMulLt (div8_lt hx) hy, ?_⟩
    rintro ⟨hx', hy'⟩ ⟨hidx, hbit⟩
    have hm := shiftr128_inj _ (hmod8 x) _ (hmod8 x') hbit
    obtain ⟨hd, hyy⟩ := decompUnique (div8_lt hx) (div8_lt hx') hidx
    exact ⟨by omega, hyy⟩
  | Rotate90 =>
    simp only [inBounds, rotatedDims] at hxy
    obtain ⟨hx, hy⟩ := hxy
    have hkpos : 1 ≤ k := by omega
    simp only [apply_rotation, Prod.mk.injEq, inBounds, rotatedDims, hk8, htot]
    have ha : (8 * k - 1 - y) / 8 < k := div8_lt (by omega)
    refine ⟨addMulLt ha hx, ?_⟩
    rintro ⟨hx', hy'⟩ ⟨hidx, hbit⟩
    have hm := shiftl1_inj _ (hmod8 y) _ (hmod8 y') hbit
    have ha' : (8 * k - 1 - y') / 8 < k := div8_lt (by omega)
    obtain ⟨hd, hxx⟩ := decompUnique ha ha' hidx
    exact ⟨hxx, by omega⟩
  | Rotate180 =>
    simp only [inBounds, rotatedDims] at hxy
    obtain ⟨hx, hy⟩ := hxy
    simp only [apply_rotation, Prod.mk.injEq, inBounds, rotatedDims, hk8, htot]
    have hsum : x / 8 + k * y < k * height := addMulLt (div8_lt hx) hy
    constructor
    · generalize hgm : x / 8 + k * y = m at hsum ⊢
      generalize hgK : k * height = K at hsum ⊢
      omega
    · rintro ⟨hx', hy'⟩ ⟨hidx, hbit⟩
      have hm := shiftl1_inj _ (hmod8 x) _ (hmod8 x') hbit
      have hsum' : x' / 8 + k * y' < k * height := addMulLt (div8_lt hx') hy'
      have heqm : x / 8 + k * y = x' / 8 + k * y' := by
        generalize hgm : x / 8 + k * y = m at hsum hidx ⊢
        generalize hgm' : x' / 8 + k * y' = m' at hsum' hidx ⊢
        generalize hgK : k * height = K at hsum hsum' hidx ⊢
        omega
      obtain ⟨hd, hyy⟩ := decompUnique (div8_lt hx) (div8_lt hx') heqm
      exact ⟨by omega, hyy⟩
  | Rotate270 =>
    simp only [inBounds, rotatedDims] at hxy
    obtain ⟨hx, hy⟩ := hxy
    simp only [apply_rotation, Prod.mk.injEq, inBounds, rotatedDims, hk8, htot]
    rw [Nat.mul_comm (height - 1 - x) k, Nat.mul_comm (height - 1 - x') k]
    have hb : height - 1 - x < height := by omega
    refine ⟨addMulLt (div8_lt hy) hb, ?_⟩
    rintro ⟨hx', hy'⟩ ⟨hidx, hbit⟩
    have hm := shiftr128_inj _ (hmod8 y) _ (hmod8 y') hbit
    obtain ⟨hd, hxx⟩ := decompUnique (div8_lt hy) (div8_lt hy') hidx
    exact ⟨by omega, by omega⟩

/-- Witness for `apply_rotation_range_injective` at a concrete panel and
coordinate. -/
theorem apply_rotation_range_injective_witness :
    (16 % 8 = 0 ∧ 1 ≤ 16 ∧ inBounds 16 16 .Rotate90 3 5 ∧ inBounds 16 16 .Rotate90 3 5) ∧
    (apply_rotation 3 5 16 16 .Rotate90).1 < 16 * 16 / 8 ∧ (3 = 3 ∧ 5 = 5) :=
  ⟨⟨rfl, by norm_num, by decide, by decide⟩,
    (apply_rotation_range_injective 16 16 .Rotate90 3 5 3 5 rfl (by norm_num)
      (by decide)).1,
    (apply_rotation_range_injective 16 16 .Rotate90 3 5 3 5 rfl (by norm_num)
      (by decide)).2 (by decide) rfl⟩

/-- C3: for every pixel coordinate and every rotation, `apply_rotation`
returns exactly the specified byte index and bit mask: Rotate0 gives
`(x/8 + (width/8)·y, 0x80 >> (x mod 8))`, Rotate90 gives
`((width−1−y)/8 + (width/8)·x, 0x01 << (y mod 8))`, Rotate180 gives
`((width/8)·height − 1 − (x/8 + (width/8)·y), 0x01 << (x mod 8))`,
Rotate270 gives `(y/8 + (height−1−x)·(width/8), 0x80 >> (y mod 8))`; in
particular `map(0,0,16,16,Rotate90) = (1, 0x01)` and
`map(0,0,16,16,Rotate270) = (30, 0x80)`. -/
theorem apply_rotation_spec :
    (∀ x y width height : Nat,
      apply_rotation x y width height .Rotate0 =
        (x / 8 + width / 8 * y, 0x80 >>> (x % 8)) ∧
      apply_rotation x y width height .Rotate90 =
        ((width - 1 - y) / 8 + width / 8 * x, 0x01 <<< (y % 8)) ∧
      apply_rotation x y width height .Rotate180 =
        (width / 8 * height - 1 - (x / 8 + width / 8 * y), 0x01 <<< (x % 8)) ∧
      apply_rotation x y width height .Rotate270 =
        (y / 8 + (height - 1 - x) * (width / 8), 0x80 >>> (y % 8))) ∧
    apply_rotation 0 0 16 16 .Rotate90 = (1, 0x01) ∧
    apply_rotation 0 0 16 16 .Rotate270 = (30, 0x80) :=
  ⟨fun _ _ _ _ => ⟨rfl, rfl, rfl, rfl⟩, by decide, by decide⟩

/-- Colors supported by the tri-color panel (`color.rs`, `enum Color`). -/
inductive Color where
  | Black
  | White
  | Red
deriving DecidableEq, Repr

/-- `Color::bw_byte` (`color.rs`): fill byte for the black/white buffer. -/
def Color.bw_byte : Color → Nat
  | .Black => 0x00
  | .White => 0xFF
  | .Red => 0xFF

/-- `Color::red_byte` (`color.rs`): fill byte for the red buffer. -/
def Color.red_byte : Color → Nat
  | .Black => 0x00
  | .White => 0x00
  | .Red => 0xFF

/-- Display configuration (`config.rs`, `struct Config`), restricted to the
fields the update/refresh engine, RAM-window calculator and graphics
wrapper actually read (the remaining fields — booster, VCOM, border,
gate-scanning, clear values, temperature sensor — are consumed only by the
one-off `init`/`clear_ram` sequence, which no claim concerns). -/
structure Config where
  dimensions : Dimensions
  rotation : Rotation
  data_entry_mode : Nat
  ram_x_addressing : RamXAddressing
  ram_y_inverted : Bool
  display_update_ctrl2_full : Nat
  display_update_ctrl2_partial : Nat
  display_update_ctrl2_fast : Nat
  display_update_power_on : Nat
  display_update_power_off : Nat
deriving DecidableEq, Repr

/-- `Config::rotated_dimensions` (`config.rs`). -/
def Config.rotated_dimensions (c : Config) : Dimensions :=
  rotatedDims c.dimensions c.rotation

/-- The driver state (`display.rs`, `struct Display`): the configuration,
the power flag, and — in place of the hardware interface — the recorded
trace of every command/data transmission (exactly what the repository's
`MockInterface` records). -/
structure Display where
  config : Config
  is_display_on : Bool
  trace : List Event
deriving DecidableEq, Repr

/-- `Display::new` (`display.rs`): wraps a configuration with the power
flag cleared and nothing yet sent. -/
def Display.new (config : Config) : Display :=
  { config := config, is_display_on := false, trace := [] }

/-- The graphics wrapper (`graphics.rs`, `struct GraphicDisplay`): the
driver plus the two caller-owned bit-packed buffers. -/
structure GraphicDisplay where
  display : Display
  black_buffer : List Nat
  red_buffer : List Nat
deriving DecidableEq, Repr

/-- `GraphicDisplay::clear` (`graphics.rs`): overwrite every byte of the
black/white buffer with `color.bw_byte()` and every byte of the red buffer
with `color.red_byte()`. -/
def GraphicDisplay.clear (gd : GraphicDisplay) (color : Color) : GraphicDisplay :=
  { gd with
    black_buffer := gd.black_buffer.map fun _ => color.bw_byte,
    red_buffer := gd.red_buffer.map fun _ => color.red_byte }

/-- `GraphicDisplay::set_pixel` (`graphics.rs`): bounds-check against the
physical dimensions, map through `apply_rotation`, then AND/OR the bit
into the two buffers according to the color (Rust's `!bit` on a `u8` is
`255 ^^^ bit` here; the masks produced by `apply_rotation` never exceed
`0x80`). -/
def GraphicDisplay.set_pixel (gd : GraphicDisplay) (x y : Nat) (color : Color) :
    GraphicDisplay :=
  let width := gd.display.config.dimensions.cols
  let height := gd.display.config.dimensions.rows
  if x ≥ width ∨ y ≥ height then gd
  else
    let ib := apply_rotation x y width height gd.display.config.rotation
    let index := ib.1
    let bit := ib.2
    if index ≥ gd.black_buffer.length then gd
    else
      match color with
      | .Black =>
        { gd with
          black_buffer :=
            gd.black_buffer.set index (gd.black_buffer.getD index 0 &&& (255 ^^^ bit)),
          red_buffer :=
            gd.red_buffer.set index (gd.red_buffer.getD index 0 &&& (255 ^^^ bit)) }
      | .White =>
        { gd with
          black_buffer :=
            gd.black_buffer.set index (gd.black_buffer.getD index 0 ||| bit),
          red_buffer :=
            gd.red_buffer.set index (gd.red_buffer.getD index 0 &&& (255 ^^^ bit)) }
      | .Red =>
        { gd with
          black_buffer :=
            gd.black_buffer.set index (gd.black_buffer.getD index 0 ||| bit),
          red_buffer :=
            gd.red_buffer.set index (gd.red_buffer.getD index 0 ||| bit) }

/-- `DrawTarget::draw_iter` for `GraphicDisplay` (`graphics.rs`): for each
pixel, skip negative coordinates, skip coordinates outside the rotated
size, otherwise `set_pixel`. -/
def GraphicDisplay.draw_iter (gd : GraphicDisplay) :
    List (Int × Int × Color) → GraphicDisplay
  | [] => gd
  | (px, py, c) :: rest =>
    let sz := gd.display.config.rotated_dimensions
    let gd' :=
      if px < 0 ∨ py < 0 then gd
      else if px.toNat ≥ sz.cols ∨ py.toNat ≥ sz.rows then gd
      else gd.set_pixel px.toNat py.toNat c
    gd'.draw_iter rest

/-- The red-implies-black/white buffer invariant: every bit set in the red
buffer is also set at the same byte index and bit position in the
black/white buffer (bitwise, `red &&& bw = red` at every index). -/
def redSubsetBw (gd : GraphicDisplay) : Prop :=
  ∀ i, i < gd.red_buffer.length →
    gd.red_buffer.getD i 0 &&& gd.black_buffer.getD i 0 = gd.red_buffer.getD i 0

instance (gd : GraphicDisplay) : Decidable (redSubsetBw gd) := by
  unfold redSubsetBw; infer_instance

/-- Bitwise containment `a &&& b = a` phrased per test bit. -/
lemma and_eq_left_iff {a b : Nat} :
    a &&& b = a ↔ ∀ j, a.testBit j = true → b.testBit j = true := by
  constructor
  · intro h j hj
    have h2 : (a &&& b).testBit j = a.testBit j := by rw [h]
    rw [Nat.testBit_and, hj] at h2
    simpa using h2
  · intro h
    apply Nat.eq_of_testBit_eq
    intro j
    rw [Nat.testBit_and]
    cases hj : a.testBit j
    · simp
    · simp [h j hj]

/-- ANDing the same mask into both sides preserves bitwise containment. -/
lemma subset_and {r b : Nat} (m : Nat) (h : r &&& b = r) :
    (r &&& m) &&& (b &&& m) = r &&& m := by
  rw [and_eq_left_iff] at h ⊢
  intro j hj
  rw [Nat.testBit_and] at hj ⊢
  obtain ⟨hr, hm⟩ : r.testBit j = true ∧ m.testBit j = true := by simpa using hj
  rw [h j hr, hm]
  rfl

/-- ANDing a mask into the contained side while ORing into the container
preserves bitwise containment. -/
lemma subset_and_or {r b : Nat} (m n : Nat) (h : r &&& b = r) :
    (r &&& m) &&& (b ||| n) = r &&& m := by
  rw [and_eq_left_iff] at h ⊢
  intro j hj
  rw [Nat.testBit_and] at hj
  rw [Nat.testBit_or]
  obtain ⟨hr, -⟩ : r.testBit j = true ∧ m.testBit j = true := by simpa using hj
  rw [h j hr]
  rfl

/-- ORing the same mask into both sides preserves bitwise containment. -/
lemma subset_or {r b : Nat} (m : Nat) (h : r &&& b = r) :
    (r ||| m) &&& (b ||| m) = r ||| m := by
  rw [and_eq_left_iff] at h ⊢
  intro j hj
  rw [Nat.testBit_or] at hj ⊢
  have hj' : r.testBit j = true ∨ m.testBit j = true := by simpa using hj
  cases hj' with
  | inl hr => rw [h j hr]; rfl
  | inr hm => rw [hm]; simp

/-- `getD` after overwriting every element with a constant. -/
lemma getD_map_const (l : List Nat) (v i : Nat) (h : i < l.length) :
    (l.map fun _ => v).getD i 0 = v := by
  induction l generalizing i with
  | nil => simp at h
  | cons a t ih =>
    cases i with
    | zero => rfl
    | succ n => simpa using ih n (by simpa using h)

/-- `getD` after a point update. -/
lemma getD_set_ite (l : List Nat) (j v i : Nat) :
    (l.set j v).getD i 0 = if j = i ∧ j < l.length then v else l.getD i 0 := by
  rw [List.getD_eq_getElem?_getD, List.getD_eq_getElem?_getD, List.getElem?_set]
  by_cases hji : j = i
  · subst hji
    by_cases hl : j < l.length
    · simp [hl]
    · simp [hl, List.getElem?_eq_none (Nat.le_of_not_lt hl)]
  · simp [hji]

/-- `clear` preserves the buffer-length agreement and the red-implies-bw
invariant. -/
lemma clear_preserves (gd : GraphicDisplay) (c : Color)
    (hlen : gd.red_buffer.length = gd.black_buffer.length)
    (hinv : redSubsetBw gd) :
    (gd.clear c).red_buffer.length = (gd.clear c).black_buffer.length ∧
      redSubsetBw (gd.clear c) := by
  constructor
  · simp [GraphicDisplay.clear, hlen]
  · intro i hi
    simp only [GraphicDisplay.clear, List.length_map] at hi ⊢
    rw [getD_map_const _ _ _ hi, getD_map_const _ _ _ (by omega)]
    cases c <;> decide

/-- `set_pixel` preserves the buffer-length agreement and the
red-implies-bw invariant. -/
lemma set_pixel_preserves (gd : GraphicDisplay) (x y : Nat) (c : Color)
    (hlen : gd.red_buffer.length = gd.black_buffer.length)
    (hinv : redSubsetBw gd) :
    (gd.set_pixel x y c).red_buffer.length = (gd.set_pixel x y c).black_buffer.length ∧
      redSubsetBw (gd.set_pixel x y c) := by
  unfold GraphicDisplay.set_pixel
  by_cases h1 : x ≥ gd.display.config.dimensions.cols ∨ y ≥ gd.display.config.dimensions.rows
  · simp only [h1, if_true]
    exact ⟨hlen, hinv⟩
  · simp only [h1, if_false]
    by_cases h2 :
        (apply_rotation x y gd.display.config.dimensions.cols
          gd.display.config.dimensions.rows gd.display.config.rotation).1 ≥
          gd.black_buffer.length
    · simp only [h2, if_true]
      exact ⟨hlen, hinv⟩
    · simp only [h2, if_false]
      push_neg at h2
      set j := (apply_rotation x y gd.display.config.dimensions.cols
        gd.display.config.dimensions.rows gd.display.config.rotation).1 with hj
      set m := (apply_rotation x y gd.display.config.dimensions.cols
        gd.display.config.dimensions.rows gd.display.config.rotation).2 with hm
      have hjr : j < gd.red_buffer.length := by omega
      cases c with
      | Black =>
        refine ⟨by simp [hlen], ?_⟩
        intro i hi
        simp only [List.length_set] at hi
        simp only [getD_set_ite]
        by_cases hji : j = i
        · subst hji
          simp only [hjr, h2, and_true, if_pos rfl, if_true]
          exact subset_and _ (hinv j hjr)
        · simp only [hji, false_and, if_neg, if_false]
          exact hinv i hi
      | White =>
        refine ⟨by simp [hlen], ?_⟩
        intro i hi
        simp only [List.length_set] at hi
        simp only [getD_set_ite]
        by_cases hji : j = i
        · subst hji
          simp only [hjr, h2, and_true, if_pos rfl, if_true]
          exact subset_and_or _ _ (hinv j hjr)
        · simp only [hji, false_and, if_neg, if_false]
          exact hinv i hi
      | Red =>
        refine ⟨by simp [hlen], ?_⟩
        intro i hi
        simp only [List.length_set] at hi
        simp only [getD_set_ite]
        by_cases hji : j = i
        · subst hji
          simp only [hjr, h2, and_true, if_pos rfl, if_true]
          exact subset_or _ (hinv j hjr)
        · simp only [hji, false_and, if_neg, if_false]
          exact hinv i hi

/-- `draw_iter` preserves the buffer-length agreement and the
red-implies-bw invariant. -/
lemma draw_iter_preserves (ps : List (Int × Int × Color)) :
    ∀ gd : GraphicDisplay,
      gd.red_buffer.length = gd.black_buffer.length → redSubsetBw gd →
      (gd.draw_iter ps).red_buffer.length = (gd.draw_iter ps).black_buffer.length ∧
        redSubsetBw (gd.draw_iter ps) := by
  induction ps with
  | nil => exact fun gd hlen hinv => ⟨hlen, hinv⟩
  | cons p rest ih =>
    intro gd hlen hinv
    obtain ⟨px, py, c⟩ := p
    simp only [GraphicDisplay.draw_iter]
    have hstep :
        ∀ g : GraphicDisplay,
          g.red_buffer.length = g.black_buffer.length → redSubsetBw g →
          ∀ cond : Prop, ∀ inst : Decidable cond,
            ((if cond then g else g.set_pixel px.toNat py.toNat c).red_buffer.length =
              (if cond then g else g.set_pixel px.toNat py.toNat c).black_buffer.length ∧
              redSubsetBw (if cond then g else g.set_pixel px.toNat py.toNat c)) := by
      intro g hl hv cond inst
      split
      · exact ⟨hl, hv⟩
      · exact set_pixel_preserves g _ _ c hl hv
    by_cases hneg : px < 0 ∨ py < 0
    · rw [if_pos hneg]
      exact ih gd hlen hinv
    · rw [if_neg hneg]
      have h2 := hstep gd hlen hinv
        (px.toNat ≥ gd.display.config.rotated_dimensions.cols ∨
          py.toNat ≥ gd.display.config.rotated_dimensions.rows) (by infer_instance)
      exact ih _ h2.1 h2.2

/-- Command opcode `DATA_ENTRY_MODE` (`command.rs`, 0x11). -/
def DATA_ENTRY_MODE : Nat := 0x11

/-- Command opcode `SET_RAM_X_RANGE` (`command.rs`, 0x44). -/
def SET_RAM_X_RANGE : Nat := 0x44

/-- Command opcode `SET_RAM_Y_RANGE` (`command.rs`, 0x45). -/
def SET_RAM_Y_RANGE : Nat := 0x45

/-- Command opcode `SET_RAM_X_COUNTER` (`command.rs`, 0x4E). -/
def SET_RAM_X_COUNTER : Nat := 0x4E

/-- Command opcode `SET_RAM_Y_COUNTER` (`command.rs`, 0x4F). -/
def SET_RAM_Y_COUNTER : Nat := 0x4F

/-- Command opcode `WRITE_RAM_BW` (`command.rs`, 0x24). -/
def WRITE_RAM_BW : Nat := 0x24

/-- Command opcode `WRITE_RAM_RED` (`command.rs`, 0x26). -/
def WRITE_RAM_RED : Nat := 0x26

/-- Command opcode `DISPLAY_UPDATE_CTRL1` (`command.rs`, 0x21). -/
def DISPLAY_UPDATE_CTRL1 : Nat := 0x21

/-- Command opcode `DISPLAY_UPDATE_CTRL2` (`command.rs`, 0x22). -/
def DISPLAY_UPDATE_CTRL2 : Nat := 0x22

/-- Command opcode `MASTER_ACTIVATION` (`command.rs`, 0x20). -/
def MASTER_ACTIVATION : Nat := 0x20

/-- `CTRL1_NORMAL` (`command.rs`, 0x00): both RAM planes active for the
refresh. -/
def CTRL1_NORMAL : Nat := 0x00

/-- `CTRL1_BYPASS_RED` (`command.rs`, 0x40): red RAM bypassed for the
refresh. -/
def CTRL1_BYPASS_RED : Nat := 0x40

/-- Command opcode `WRITE_LUT` (`command.rs`, 0x32). -/
def WRITE_LUT : Nat := 0x32

/-- Command opcode `DEEP_SLEEP` (`command.rs`, 0x10). -/
def DEEP_SLEEP : Nat := 0x10

/-- Runtime error type (`error.rs`, `enum Error`), restricted to the
validation variants the driver itself produces (`Interface` transport
errors cannot occur against the recording interface). -/
inductive Err where
  | BufferTooSmall (required provided : Nat)
  | InvalidRamArea (x y w h : Nat)
  | InvalidLutLength (expected provided : Nat)
  | InvalidLutShortLength (expected provided : Nat)
deriving DecidableEq, Repr

/-- `Display::send_command`: one command byte framed to the interface. -/
def sendCommand (s : Display) (c : Nat) : Display :=
  { s with trace := s.trace ++ [Event.cmd c] }

/-- `Display::send_data`: one data block framed to the interface. -/
def sendData (s : Display) (d : List Nat) : Display :=
  { s with trace := s.trace ++ [Event.data d] }

/-- `u16::saturating_add`. -/
def satAdd (a b : Nat) : Nat := min (a + b) 65535

/-- A real-sum bound implies the saturating-sum bound. -/
lemma satAdd_le {a b c : Nat} (h : a + b ≤ c) : satAdd a b ≤ c := by
  simp only [satAdd]; omega

/-- Sequencing of fallible driver steps: Rust's `?` operator on a
`&mut self` method — on error the device state (the recorded trace) is
kept and the error propagates. -/
def bindR (r : Display × Except Err Unit) (k : Display → Display × Except Err Unit) :
    Display × Except Err Unit :=
  match r with
  | (s, .ok _) => k s
  | (s, .error e) => (s, .error e)

/-- The RAM-window calculator `Display::set_ram_area` (`display.rs`):
validate the region, then program data-entry mode, X/Y ranges and X/Y
counters. -/
def set_ram_area (s : Display) (x y w h : Nat) : Display × Except Err Unit :=
  if w = 0 ∨ h = 0 then (s, .error (.InvalidRamArea x y w h))
  else if satAdd x w > s.config.dimensions.cols ∨ satAdd y h > s.config.dimensions.rows then
    (s, .error (.InvalidRamArea x y w h))
  else if x % 8 ≠ 0 ∨ w % 8 ≠ 0 then (s, .error (.InvalidRamArea x y w h))
  else
    let s1 := sendData (sendCommand s DATA_ENTRY_MODE) [s.config.data_entry_mode]
    let id0 := s.config.data_entry_mode &&& 0x01 != 0
    let id1 := s.config.data_entry_mode &&& 0x02 != 0
    let x_start_raw := match s.config.ram_x_addressing with
      | .Pixels => x
      | .Bytes => x / 8
    let x_end_raw := match s.config.ram_x_addressing with
      | .Pixels => x + w - 1
      | .Bytes => (x + w - 1) / 8
    let x_start := if id0 then x_start_raw else x_end_raw
    let x_end := if id0 then x_end_raw else x_start_raw
    let s2 := sendData (sendCommand s1 SET_RAM_X_RANGE)
      [x_start % 256, x_start / 256, x_end % 256, x_end / 256]
    let y_base := if s.config.ram_y_inverted then s.config.dimensions.rows - y - h else y
    let y_start_raw := y_base
    let y_end_raw := y_base + h - 1
    let y_start := if id1 then y_start_raw else y_end_raw
    let y_end := if id1 then y_end_raw else y_start_raw
    let s3 := sendData (sendCommand s2 SET_RAM_Y_RANGE)
      [y_start % 256, y_start / 256, y_end % 256, y_end / 256]
    let s4 := sendData (sendCommand s3 SET_RAM_X_COUNTER) [x_start % 256, x_start / 256]
    let s5 := sendData (sendCommand s4 SET_RAM_Y_COUNTER) [y_start % 256, y_start / 256]
    (s5, .ok ())

/-- `Display::LUT_SIZE` (`display.rs`): the chip-mandated table length. -/
def LUT_SIZE : Nat := 112

/-- Modelled from the spec: the built-in partial-refresh waveform table
(`lut.rs`, `LUT_PARTIAL`, absent from the sources); per the spec it is an
opaque 112-byte blob loaded verbatim, so only its length is significant. -/
def LUT_PARTIAL : List Nat := List.replicate 112 0

/-- Modelled from the spec: the built-in fast-refresh waveform table
(`lut.rs`, `LUT_FAST`, absent from the sources); per the spec it is an
opaque 112-byte blob loaded verbatim, so only its length is significant. -/
def LUT_FAST : List Nat := List.replicate 112 0

/-- `Display::load_lut` (`display.rs`): reject any table not exactly
`LUT_SIZE` bytes, otherwise send `WRITE_LUT` followed by the table. -/
def load_lut (s : Display) (lut : List Nat) : Display × Except Err Unit :=
  if lut.length ≠ LUT_SIZE then (s, .error (.InvalidLutLength LUT_SIZE lut.length))
  else (sendData (sendCommand s WRITE_LUT) lut, .ok ())

/-- `Display::refresh_with_mode` (`display.rs`): write update-control-1
(plane bypass selection), update-control-2 (mode byte OR'd with power-on
bits when not powered, OR'd with power-off bits on a power-down refresh),
trigger master activation, and track the power flag. -/
def refresh_with_mode (s : Display) (mode : RefreshMode) (turn_off use_red : Bool) :
    Display :=
  let s1 := sendCommand s DISPLAY_UPDATE_CTRL1
  let ctrl1 := if use_red then CTRL1_NORMAL else CTRL1_BYPASS_RED
  let s2 := sendData s1 [ctrl1]
  let dm0 := match mode with
    | .Full => s.config.display_update_ctrl2_full
    | .Partial => s.config.display_update_ctrl2_partial
    | .Fast => s.config.display_update_ctrl2_fast
  let dm1 := if !s.is_display_on then dm0 ||| s.config.display_update_power_on else dm0
  let dm2 := if turn_off then dm1 ||| s.config.display_update_power_off else dm1
  let on2 := if turn_off then false else true
  let s3 := { s2 with is_display_on := on2 }
  let s4 := sendData (sendCommand s3 DISPLAY_UPDATE_CTRL2) [dm2]
  sendCommand s4 MASTER_ACTIVATION

/-- `Display::deep_sleep` (`display.rs`): when powered, run the power-down
sequence (bypass red, control-2 = 0x03, activate) and clear the power
flag, then send the deep-sleep command with the mode byte. -/
def deep_sleep (s : Display) (mode : DeepSleepMode) : Display :=
  let s1 := if s.is_display_on then
      let a := sendData (sendCommand s DISPLAY_UPDATE_CTRL1) [CTRL1_BYPASS_RED]
      let b := sendData (sendCommand a DISPLAY_UPDATE_CTRL2) [0x03]
      let c := sendCommand b MASTER_ACTIVATION
      { c with is_display_on := false }
    else s
  sendData (sendCommand s1 DEEP_SLEEP) [mode.toByte]

/-- Region for partial updates (`display.rs`, `struct Region`). -/
structure Region where
  x : Nat
  y : Nat
  w : Nat
  h : Nat
deriving DecidableEq, Repr

/-- `Region::buffer_size`: `(w / 8) * h`. -/
def Region.buffer_size (r : Region) : Nat := r.w / 8 * r.h

/-- Update description for a region (`display.rs`, `struct UpdateRegion`). -/
structure UpdateRegion where
  region : Region
  black_buffer : List Nat
  red_buffer : List Nat
  mode : RefreshMode
deriving DecidableEq, Repr

/-- The optional built-in waveform load performed at the start of
`update_with_mode_internal` / `update_region_internal` (`display.rs`):
Full mode never loads a table; Partial/Fast load their built-in tables
when `use_builtin_lut` is set. -/
def lutStep (s : Display) (use_builtin_lut : Bool) (mode : RefreshMode) :
    Display × Except Err Unit :=
  if use_builtin_lut then
    match mode with
    | .Full => (s, .ok ())
    | .Partial => load_lut s LUT_PARTIAL
    | .Fast => load_lut s LUT_FAST
  else (s, .ok ())

/-- `Display::update_region_internal` (`display.rs`): classify the red
buffer, validate buffer sizes, optionally load a built-in waveform,
program the RAM window, write the black/white plane, write the red plane
per the red-plane policy, trigger the refresh, and on the single-buffer
fast path re-program the window and rewrite the red plane with the
black/white data. -/
def update_region_internal (s : Display) (u : UpdateRegion) (use_builtin_lut : Bool) :
    Display × Except Err Unit :=
  let explicit_red := !u.red_buffer.isEmpty && u.red_buffer.any fun b => b != 0
  let single_buffer_fast := u.mode == RefreshMode.Fast && !explicit_red
  let sync_red_before_refresh := u.mode != RefreshMode.Fast && !explicit_red
  let use_red_for_refresh := explicit_red || single_buffer_fast
  let expected_size := u.region.buffer_size
  if u.black_buffer.length < expected_size then
    (s, .error (.BufferTooSmall expected_size u.black_buffer.length))
  else if explicit_red = true ∧ u.red_buffer.length < expected_size then
    (s, .error (.BufferTooSmall expected_size u.red_buffer.length))
  else
    bindR (lutStep s use_builtin_lut u.mode) fun s1 =>
    bindR (set_ram_area s1 u.region.x u.region.y u.region.w u.region.h) fun s2 =>
    let s3 := sendData (sendCommand s2 WRITE_RAM_BW) (u.black_buffer.take expected_size)
    let s4 := if explicit_red then
        sendData (sendCommand s3 WRITE_RAM_RED) (u.red_buffer.take expected_size)
      else if sync_red_before_refresh then
        sendData (sendCommand s3 WRITE_RAM_RED) (u.black_buffer.take expected_size)
      else s3
    let s5 := refresh_with_mode s4 u.mode false use_red_for_refresh
    if single_buffer_fast then
      bindR (set_ram_area s5 u.region.x u.region.y u.region.w u.region.h) fun s6 =>
      (sendData (sendCommand s6 WRITE_RAM_RED) (u.black_buffer.take expected_size), .ok ())
    else (s5, .ok ())

/-- `Display::update_with_mode_internal` (`display.rs`): the full-frame
variant — identical to the region variant with the full-panel rectangle
and the panel-wide buffer size. -/
def update_with_mode_internal (s : Display) (black_buffer red_buffer : List Nat)
    (mode : RefreshMode) (use_builtin_lut : Bool) : Display × Except Err Unit :=
  let explicit_red := !red_buffer.isEmpty && red_buffer.any fun b => b != 0
  let single_buffer_fast := mode == RefreshMode.Fast && !explicit_red
  let sync_red_before_refresh := mode != RefreshMode.Fast && !explicit_red
  let use_red_for_refresh := explicit_red || single_buffer_fast
  let expected_size := s.config.dimensions.buffer_size
  if black_buffer.length < expected_size then
    (s, .error (.BufferTooSmall expected_size black_buffer.length))
  else if explicit_red = true ∧ red_buffer.length < expected_size then
    (s, .error (.BufferTooSmall expected_size red_buffer.length))
  else
    bindR (lutStep s use_builtin_lut mode) fun s1 =>
    bindR (set_ram_area s1 0 0 s.config.dimensions.cols s.config.dimensions.rows) fun s2 =>
    let s3 := sendData (sendCommand s2 WRITE_RAM_BW) (black_buffer.take expected_size)
    let s4 := if explicit_red then
        sendData (sendCommand s3 WRITE_RAM_RED) (red_buffer.take expected_size)
      else if sync_red_before_refresh then
        sendData (sendCommand s3 WRITE_RAM_RED) (black_buffer.take expected_size)
      else s3
    let s5 := refresh_with_mode s4 mode false use_red_for_refresh
    if single_buffer_fast then
      bindR (set_ram_area s5 0 0 s.config.dimensions.cols s.config.dimensions.rows) fun s6 =>
      (sendData (sendCommand s6 WRITE_RAM_RED) (black_buffer.take expected_size), .ok ())
    else (s5, .ok ())

/-- `Display::update_with_custom_lut` (`display.rs`): load the
caller-supplied table first, then run the full-frame update without the
built-in tables. -/
def update_with_custom_lut (s : Display) (black_buffer red_buffer : List Nat)
    (mode : RefreshMode) (lut : List Nat) : Display × Except Err Unit :=
  bindR (load_lut s lut) fun s1 =>
    update_with_mode_internal s1 black_buffer red_buffer mode false

/-- `Display::update_region_with_custom_lut` (`display.rs`): load the
caller-supplied table first, then run the region update without the
built-in tables. -/
def update_region_with_custom_lut (s : Display) (u : UpdateRegion) (lut : List Nat) :
    Display × Except Err Unit :=
  bindR (load_lut s lut) fun s1 => update_region_internal s1 u false

/-- The event sequence emitted by a successful `set_ram_area` call,
computed exactly as the source computes it. -/
def ramEvents (c : Config) (x y w h : Nat) : List Event :=
  let id0 := c.data_entry_mode &&& 0x01 != 0
  let id1 := c.data_entry_mode &&& 0x02 != 0
  let x_start_raw := match c.ram_x_addressing with
    | .Pixels => x
    | .Bytes => x / 8
  let x_end_raw := match c.ram_x_addressing with
    | .Pixels => x + w - 1
    | .Bytes => (x + w - 1) / 8
  let x_start := if id0 then x_start_raw else x_end_raw
  let x_end := if id0 then x_end_raw else x_start_raw
  let y_base := if c.ram_y_inverted then c.dimensions.rows - y - h else y
  let y_start := if id1 then y_base else y_base + h - 1
  let y_end := if id1 then y_base + h - 1 else y_base
  [Event.cmd DATA_ENTRY_MODE, Event.data [c.data_entry_mode],
   Event.cmd SET_RAM_X_RANGE,
   Event.data [x_start % 256, x_start / 256, x_end % 256, x_end / 256],
   Event.cmd SET_RAM_Y_RANGE,
   Event.data [y_start % 256, y_start / 256, y_end % 256, y_end / 256],
   Event.cmd SET_RAM_X_COUNTER, Event.data [x_start % 256, x_start / 256],
   Event.cmd SET_RAM_Y_COUNTER, Event.data [y_start % 256, y_start / 256]]

/-- A valid region makes `set_ram_area` succeed, emitting exactly
`ramEvents`. -/
lemma set_ram_area_ok (s : Display) (x y w h : Nat)
    (hw : w ≠ 0) (hh : h ≠ 0) (hxw : satAdd x w ≤ s.config.dimensions.cols)
    (hyh : satAdd y h ≤ s.config.dimensions.rows) (hx8 : x % 8 = 0) (hw8 : w % 8 = 0) :
    set_ram_area s x y w h =
      ({ s with trace := s.trace ++ ramEvents s.config x y w h }, .ok ()) := by
  rw [set_ram_area, if_neg (by omega), if_neg (by omega), if_neg (by omega)]
  simp only [ramEvents, sendCommand, sendData, List.append_assoc, List.singleton_append,
    List.cons_append, List.nil_append]

/-- `set_ram_area_ok` specialized to an explicit state literal, in the
form the update-engine proofs encounter. -/
lemma set_ram_area_ok_mk (cfg : Config) (b : Bool) (t : List Event) (x y w h : Nat)
    (hw : w ≠ 0) (hh : h ≠ 0) (hxw : satAdd x w ≤ cfg.dimensions.cols)
    (hyh : satAdd y h ≤ cfg.dimensions.rows) (hx8 : x % 8 = 0) (hw8 : w % 8 = 0) :
    set_ram_area ⟨cfg, b, t⟩ x y w h =
      (⟨cfg, b, t ++ ramEvents cfg x y w h⟩, .ok ()) :=
  set_ram_area_ok ⟨cfg, b, t⟩ x y w h hw hh hxw hyh hx8 hw8

/-- A failing `set_ram_area` leaves the device state unchanged: its
validation precedes every transmission. -/
lemma set_ram_area_error (s : Display) (x y w h : Nat) (s' : Display) (e : Err)
    (heq : set_ram_area s x y w h = (s', .error e)) : s' = s := by
  rw [set_ram_area] at heq
  split at heq
  · simp only [Prod.mk.injEq] at heq
    exact heq.1.symm
  · split at heq
    · simp only [Prod.mk.injEq] at heq
      exact heq.1.symm
    · split at heq
      · simp only [Prod.mk.injEq] at heq
        exact heq.1.symm
      · simp only [Prod.mk.injEq] at heq
        exact absurd heq.2 (by simp)

/-- A failing `load_lut` leaves the device state unchanged: the length
check precedes the transmission. -/
lemma load_lut_error (s : Display) (lut : List Nat) (s' : Display) (e : Err)
    (heq : load_lut s lut = (s', .error e)) : s' = s := by
  rw [load_lut] at heq
  split at heq
  · simp only [Prod.mk.injEq] at heq
    exact heq.1.symm
  · simp only [Prod.mk.injEq] at heq
    exact absurd heq.2 (by simp)

/-- The events emitted by the optional built-in waveform load. -/
def lutEvents (use_builtin_lut : Bool) (mode : RefreshMode) : List Event :=
  if use_builtin_lut then
    match mode with
    | .Full => []
    | .Partial => [Event.cmd WRITE_LUT, Event.data LUT_PARTIAL]
    | .Fast => [Event.cmd WRITE_LUT, Event.data LUT_FAST]
  else []

/-- The built-in waveform load always succeeds (both built-in tables have
the chip-mandated 112-byte length) and emits exactly `lutEvents`. -/
lemma lutStep_ok (s : Display) (ulut : Bool) (mode : RefreshMode) :
    lutStep s ulut mode = ({ s with trace := s.trace ++ lutEvents ulut mode }, .ok ()) := by
  cases ulut with
  | false => simp [lutStep, lutEvents]
  | true =>
    cases mode <;>
      simp [lutStep, lutEvents, load_lut, LUT_PARTIAL, LUT_FAST, LUT_SIZE,
        sendCommand, sendData]

/-- The update-control-2 byte assembled by `refresh_with_mode`. -/
def ctrl2Byte (c : Config) (mode : RefreshMode) (isOn turn_off : Bool) : Nat :=
  let dm0 := match mode with
    | .Full => c.display_update_ctrl2_full
    | .Partial => c.display_update_ctrl2_partial
    | .Fast => c.display_update_ctrl2_fast
  let dm1 := if !isOn then dm0 ||| c.display_update_power_on else dm0
  if turn_off then dm1 ||| c.display_update_power_off else dm1

/-- The event sequence emitted by `refresh_with_mode`. -/
def refreshEvents (c : Config) (mode : RefreshMode) (isOn turn_off use_red : Bool) :
    List Event :=
  [Event.cmd DISPLAY_UPDATE_CTRL1,
   Event.data [if use_red then CTRL1_NORMAL else CTRL1_BYPASS_RED],
   Event.cmd DISPLAY_UPDATE_CTRL2, Event.data [ctrl2Byte c mode isOn turn_off],
   Event.cmd MASTER_ACTIVATION]

/-- `refresh_with_mode` in closed form: it appends `refreshEvents` and
sets the power flag to the negation of `turn_off`. -/
lemma refresh_with_mode_eq (s : Display) (mode : RefreshMode) (turn_off use_red : Bool) :
    refresh_with_mode s mode turn_off use_red =
      { s with is_display_on := !turn_off,
               trace := s.trace ++ refreshEvents s.config mode s.is_display_on turn_off use_red } := by
  cases turn_off <;>
    simp [refresh_with_mode, refreshEvents, ctrl2Byte, sendCommand, sendData,
      List.append_assoc]

/-- `update_region_internal` on an explicit red buffer (non-empty with a
non-zero byte): the red buffer is written as-is after the black/white
plane, and the refresh runs with both planes active. -/
lemma update_region_internal_explicit (s : Display) (u : UpdateRegion) (ulut : Bool)
    (hes : (!u.red_buffer.isEmpty && u.red_buffer.any fun b => b != 0) = true)
    (hb : u.region.buffer_size ≤ u.black_buffer.length)
    (hr : u.region.buffer_size ≤ u.red_buffer.length)
    (hw : u.region.w ≠ 0) (hh : u.region.h ≠ 0)
    (hxw : satAdd u.region.x u.region.w ≤ s.config.dimensions.cols)
    (hyh : satAdd u.region.y u.region.h ≤ s.config.dimensions.rows)
    (hx8 : u.region.x % 8 = 0) (hw8 : u.region.w % 8 = 0) :
    update_region_internal s u ulut =
      ({ s with is_display_on := true,
                trace := s.trace ++ lutEvents ulut u.mode ++
            ramEvents s.config u.region.x u.region.y u.region.w u.region.h ++
            [Event.cmd WRITE_RAM_BW, Event.data (u.black_buffer.take u.region.buffer_size),
             Event.cmd WRITE_RAM_RED, Event.data (u.red_buffer.take u.region.buffer_size)] ++
            refreshEvents s.config u.mode s.is_display_on false true }, .ok ()) := by
  simp only [update_region_internal, hes, Bool.not_true, Bool.and_false, Bool.true_or]
  rw [if_neg (by omega), if_neg (fun hc => absurd hc.2 (by omega)), lutStep_ok]
  simp only [bindR]
  rw [set_ram_area_ok_mk _ _ _ _ _ _ _ hw hh hxw hyh hx8 hw8]
  simp only [bindR]
  rw [refresh_with_mode_eq]
  simp [sendCommand, sendData, List.append_assoc]

/-- `update_region_internal` in Fast mode without an explicit red buffer
(the single-buffer fast path): no red write before the refresh trigger,
refresh with both planes active, then the window is re-programmed and the
red plane rewritten with the black/white data. -/
lemma update_region_internal_fast (s : Display) (u : UpdateRegion) (ulut : Bool)
    (hes : (!u.red_buffer.isEmpty && u.red_buffer.any fun b => b != 0) = false)
    (hmode : u.mode = RefreshMode.Fast)
    (hb : u.region.buffer_size ≤ u.black_buffer.length)
    (hw : u.region.w ≠ 0) (hh : u.region.h ≠ 0)
    (hxw : satAdd u.region.x u.region.w ≤ s.config.dimensions.cols)
    (hyh : satAdd u.region.y u.region.h ≤ s.config.dimensions.rows)
    (hx8 : u.region.x % 8 = 0) (hw8 : u.region.w % 8 = 0) :
    update_region_internal s u ulut =
      ({ s with is_display_on := true,
                trace := s.trace ++ lutEvents ulut u.mode ++
            ramEvents s.config u.region.x u.region.y u.region.w u.region.h ++
            [Event.cmd WRITE_RAM_BW, Event.data (u.black_buffer.take u.region.buffer_size)] ++
            refreshEvents s.config u.mode s.is_display_on false true ++
            ramEvents s.config u.region.x u.region.y u.region.w u.region.h ++
            [Event.cmd WRITE_RAM_RED,
             Event.data (u.black_buffer.take u.region.buffer_size)] }, .ok ()) := by
  simp only [update_region_internal, hes, hmode, Bool.not_false, Bool.and_true, beq_self_eq_true,
    bne_self_eq_false, Bool.false_and, Bool.false_or]
  rw [if_neg (by omega), if_neg (fun hc => absurd hc.1 (by simp)), lutStep_ok]
  simp only [bindR]
  rw [set_ram_area_ok_mk _ _ _ _ _ _ _ hw hh hxw hyh hx8 hw8]
  simp only [bindR]
  rw [refresh_with_mode_eq]
  simp [sendCommand, sendData, List.append_assoc]
  rw [set_ram_area_ok_mk _ _ _ _ _ _ _ hw hh hxw hyh hx8 hw8]
  simp only [bindR]
  simp [sendCommand, sendData, List.append_assoc]

/-- `update_region_internal` in Full/Partial mode without an explicit red
buffer: the black/white data is mirrored into the red plane before the
refresh, and the refresh runs with the red plane bypassed. -/
lemma update_region_internal_slow (s : Display) (u : UpdateRegion) (ulut : Bool)
    (hes : (!u.red_buffer.isEmpty && u.red_buffer.any fun b => b != 0) = false)
    (hmode : (u.mode == RefreshMode.Fast) = false)
    (hb : u.region.buffer_size ≤ u.black_buffer.length)
    (hw : u.region.w ≠ 0) (hh : u.region.h ≠ 0)
    (hxw : satAdd u.region.x u.region.w ≤ s.config.dimensions.cols)
    (hyh : satAdd u.region.y u.region.h ≤ s.config.dimensions.rows)
    (hx8 : u.region.x % 8 = 0) (hw8 : u.region.w % 8 = 0) :
    update_region_internal s u ulut =
      ({ s with is_display_on := true,
                trace := s.trace ++ lutEvents ulut u.mode ++
            ramEvents s.config u.region.x u.region.y u.region.w u.region.h ++
            [Event.cmd WRITE_RAM_BW, Event.data (u.black_buffer.take u.region.buffer_size),
             Event.cmd WRITE_RAM_RED, Event.data (u.black_buffer.take u.region.buffer_size)] ++
            refreshEvents s.config u.mode s.is_display_on false false }, .ok ()) := by
  have hbne : (u.mode != RefreshMode.Fast) = true := by
    simp [bne, hmode]
  simp only [update_region_internal, hes, hmode, hbne, Bool.not_false, Bool.and_true,
    Bool.false_and, Bool.false_or, Bool.true_and]
  rw [if_neg (by omega), if_neg (fun hc => absurd hc.1 (by simp)), lutStep_ok]
  simp only [bindR]
  rw [set_ram_area_ok_mk _ _ _ _ _ _ _ hw hh hxw hyh hx8 hw8]
  simp only [bindR]
  rw [refresh_with_mode_eq]
  simp [sendCommand, sendData, List.append_assoc]

/-- For a byte-aligned panel width the full-frame region's buffer size is
the panel-wide buffer size. -/
lemma full_region_buffer_size (d : Dimensions) (h8 : d.cols % 8 = 0) :
    (Region.mk 0 0 d.cols d.rows).buffer_size = d.buffer_size := by
  obtain ⟨t, ht⟩ : ∃ t, d.cols = 8 * t := ⟨d.cols / 8, by omega⟩
  rw [Region.buffer_size, Dimensions.buffer_size]
  simp only [ht]
  rw [Nat.mul_div_cancel_left t (by norm_num),
    show d.rows * (8 * t) = 8 * (t * d.rows) by ring,
    Nat.mul_div_cancel_left _ (by norm_num)]

/-- `update_with_mode_internal` is `update_region_internal` at the
full-panel rectangle (`display.rs`: the two functions are line-for-line
parallel, with the panel-wide buffer size and the full-frame window). -/
lemma full_as_region (s : Display) (black red : List Nat) (mode : RefreshMode)
    (ulut : Bool) (h8 : s.config.dimensions.cols % 8 = 0) :
    update_with_mode_internal s black red mode ulut =
      update_region_internal s
        ⟨⟨0, 0, s.config.dimensions.cols, s.config.dimensions.rows⟩, black, red, mode⟩
        ulut := by
  have hsz := full_region_buffer_size s.config.dimensions h8
  simp only [update_with_mode_internal, update_region_internal, hsz]

/-- Whether an event is the master-activation (refresh trigger) command. -/
def isMA : Event → Bool
  | .cmd c => c == MASTER_ACTIVATION
  | .data _ => false

/-- The part of a trace transmitted before the refresh trigger. -/
def beforeMA (tr : List Event) : List Event :=
  tr.takeWhile fun e => !(isMA e)

/-- The part of a trace from the refresh trigger on. -/
def afterMA (tr : List Event) : List Event :=
  tr.dropWhile fun e => !(isMA e)

/-- The data blocks transmitted immediately after occurrences of command
`c` in a trace (the repository tests inspect the same `(command, data)`
pairing through their mock interface). -/
def dataAfter (c : Nat) : List Event → List (List Nat)
  | [] => []
  | [Event.cmd _] => []
  | [Event.data _] => []
  | Event.cmd c' :: Event.data d :: rest =>
    if c' = c then d :: dataAfter c rest else dataAfter c rest
  | Event.cmd _ :: Event.cmd c' :: rest => dataAfter c (Event.cmd c' :: rest)
  | Event.data _ :: rest => dataAfter c rest

/-- A red buffer that is empty or all-zero is not "explicit" in the sense
of the update engine's classification. -/
lemma explicitRed_false {red : List Nat} (h : red = [] ∨ ∀ b ∈ red, b = 0) :
    (!red.isEmpty && red.any fun b => b != 0) = false := by
  rcases h with rfl | hall
  · rfl
  · cases hE : red.isEmpty
    · simp only [Bool.not_false, Bool.true_and]
      rw [List.any_eq_false]
      intro b hb
      simpa using hall b hb
    · simp [hE]

/-- A non-empty red buffer with a non-zero byte is "explicit" in the sense
of the update engine's classification. -/
lemma explicitRed_true {red : List Nat} (h1 : red ≠ []) (h2 : ∃ b ∈ red, b ≠ 0) :
    (!red.isEmpty && red.any fun b => b != 0) = true := by
  have hE : red.isEmpty = false := by simpa [List.isEmpty_iff] using h1
  obtain ⟨b, hb, hbne⟩ := h2
  have hA : (red.any fun b => b != 0) = true :=
    List.any_eq_true.mpr ⟨b, hb, by simpa using hbne⟩
  simp [hE, hA]

/-- The `Builder::default()` configuration (`config.rs`) over a small
16×16 panel, used as the concrete instance in witnesses. -/
def testConfig : Config :=
  { dimensions := ⟨16, 16⟩
    rotation := .Rotate0
    data_entry_mode := 0x01
    ram_x_addressing := .Pixels
    ram_y_inverted := false
    display_update_ctrl2_full := 0xF7
    display_update_ctrl2_partial := 0xC7
    display_update_ctrl2_fast := 0xC7
    display_update_power_on := 0xC0
    display_update_power_off := 0x03 }

/-- C8: for every update in every refresh mode, an explicit red buffer
(non-empty with at least one non-zero byte) is written as-is to the red
plane, and the refresh trigger's update-control-1 byte is the planes-active
value `CTRL1_NORMAL` — never the bypass value. -/
theorem update_explicit_red_planes_active (cfg : Config) (on0 : Bool)
    (black red : List Nat) (mode : RefreshMode) (ulut : Bool)
    (hdims : cfg.dimensions.valid)
    (hne : red ≠ []) (hnz : ∃ b ∈ red, b ≠ 0)
    (hb : cfg.dimensions.buffer_size ≤ black.length)
    (hr : cfg.dimensions.buffer_size ≤ red.length) :
    (update_with_mode_internal ⟨cfg, on0, []⟩ black red mode ulut).2 = .ok () ∧
    dataAfter DISPLAY_UPDATE_CTRL1
        (update_with_mode_internal ⟨cfg, on0, []⟩ black red mode ulut).1.trace =
      [[CTRL1_NORMAL]] ∧
    dataAfter WRITE_RAM_RED
        (update_with_mode_internal ⟨cfg, on0, []⟩ black red mode ulut).1.trace =
      [red.take cfg.dimensions.buffer_size] := by
  obtain ⟨hr1, hr2, hc1, hc2, hc8⟩ := hdims
  have hsz := full_region_buffer_size cfg.dimensions hc8
  rw [full_as_region _ _ _ _ _ hc8]
  rw [update_region_internal_explicit _ _ _ (explicitRed_true hne hnz)
    (by show (Region.mk 0 0 cfg.dimensions.cols cfg.dimensions.rows).buffer_size ≤
          black.length
        rw [hsz]; exact hb)
    (by show (Region.mk 0 0 cfg.dimensions.cols cfg.dimensions.rows).buffer_size ≤
          red.length
        rw [hsz]; exact hr)
    (by show cfg.dimensions.cols ≠ 0; omega)
    (by show cfg.dimensions.rows ≠ 0; omega)
    (satAdd_le (show 0 + cfg.dimensions.cols ≤ cfg.dimensions.cols by omega))
    (satAdd_le (show 0 + cfg.dimensions.rows ≤ cfg.dimensions.rows by omega))
    (by show 0 % 8 = 0; rfl)
    (by show cfg.dimensions.cols % 8 = 0; exact hc8)]
  refine ⟨rfl, ?_, ?_⟩ <;>
  · show dataAfter _ ([] ++ lutEvents ulut mode ++ _ ++ _ ++ _) = _
    rw [hsz]
    cases ulut with
    | false =>
      simp [lutEvents, ramEvents, refreshEvents, ctrl2Byte, dataAfter,
        DATA_ENTRY_MODE, SET_RAM_X_RANGE, SET_RAM_Y_RANGE, SET_RAM_X_COUNTER,
        SET_RAM_Y_COUNTER, WRITE_RAM_BW, WRITE_RAM_RED, DISPLAY_UPDATE_CTRL1,
        DISPLAY_UPDATE_CTRL2, MASTER_ACTIVATION, WRITE_LUT]
    | true =>
      cases mode <;>
        simp [lutEvents, ramEvents, refreshEvents, ctrl2Byte, dataAfter,
          DATA_ENTRY_MODE, SET_RAM_X_RANGE, SET_RAM_Y_RANGE, SET_RAM_X_COUNTER,
          SET_RAM_Y_COUNTER, WRITE_RAM_BW, WRITE_RAM_RED, DISPLAY_UPDATE_CTRL1,
          DISPLAY_UPDATE_CTRL2, MASTER_ACTIVATION, WRITE_LUT]

/-- Witness for `update_explicit_red_planes_active` at a concrete panel,
buffers and mode. -/
theorem update_explicit_red_planes_active_witness :
    (testConfig.dimensions.valid ∧ ((1 : Nat) :: List.replicate 31 0) ≠ [] ∧
      (∃ b ∈ ((1 : Nat) :: List.replicate 31 0), b ≠ 0) ∧
      testConfig.dimensions.buffer_size ≤ (List.replicate 32 (0xFF : Nat)).length ∧
      testConfig.dimensions.buffer_size ≤ ((1 : Nat) :: List.replicate 31 0).length) ∧
    dataAfter DISPLAY_UPDATE_CTRL1
        (update_with_mode_internal ⟨testConfig, false, []⟩ (List.replicate 32 0xFF)
          ((1 : Nat) :: List.replicate 31 0) RefreshMode.Full true).1.trace =
      [[CTRL1_NORMAL]] :=
  ⟨⟨by decide, by decide, by decide, by decide, by decide⟩,
    (update_explicit_red_planes_active testConfig false (List.replicate 32 0xFF)
      ((1 : Nat) :: List.replicate 31 0) RefreshMode.Full true (by decide) (by decide)
      (by decide) (by decide) (by decide)).2.1⟩

/-- C7: for every Full- or Partial-mode update whose red buffer is empty
or all-zero, the refresh trigger's update-control-1 byte is the bypass
value, and the black/white buffer contents are nevertheless written to the
red RAM plane before the refresh trigger. -/
theorem update_no_red_slow_bypasses (cfg : Config) (on0 : Bool)
    (black red : List Nat) (mode : RefreshMode) (ulut : Bool)
    (hdims : cfg.dimensions.valid)
    (hm : mode ≠ RefreshMode.Fast)
    (hred : red = [] ∨ ∀ b ∈ red, b = 0)
    (hb : cfg.dimensions.buffer_size ≤ black.length) :
    (update_with_mode_internal ⟨cfg, on0, []⟩ black red mode ulut).2 = .ok () ∧
    dataAfter DISPLAY_UPDATE_CTRL1
        (update_with_mode_internal ⟨cfg, on0, []⟩ black red mode ulut).1.trace =
      [[CTRL1_BYPASS_RED]] ∧
    dataAfter WRITE_RAM_RED
        (beforeMA (update_with_mode_internal ⟨cfg, on0, []⟩ black red mode ulut).1.trace) =
      [black.take cfg.dimensions.buffer_size] ∧
    dataAfter WRITE_RAM_RED
        (update_with_mode_internal ⟨cfg, on0, []⟩ black red mode ulut).1.trace =
      [black.take cfg.dimensions.buffer_size] := by
  obtain ⟨hr1, hr2, hc1, hc2, hc8⟩ := hdims
  have hsz := full_region_buffer_size cfg.dimensions hc8
  have hbeq : (mode == RefreshMode.Fast) = false := by
    cases mode <;> simp_all
  rw [full_as_region _ _ _ _ _ hc8]
  rw [update_region_internal_slow _ _ _ (explicitRed_false hred) hbeq
    (by show (Region.mk 0 0 cfg.dimensions.cols cfg.dimensions.rows).buffer_size ≤
          black.length
        rw [hsz]; exact hb)
    (by show cfg.dimensions.cols ≠ 0; omega)
    (by show cfg.dimensions.rows ≠ 0; omega)
    (satAdd_le (show 0 + cfg.dimensions.cols ≤ cfg.dimensions.cols by omega))
    (satAdd_le (show 0 + cfg.dimensions.rows ≤ cfg.dimensions.rows by omega))
    (by show 0 % 8 = 0; rfl)
    (by show cfg.dimensions.cols % 8 = 0; exact hc8)]
  refine ⟨rfl, ?_, ?_, ?_⟩ <;>
  · show dataAfter _ _ = _
    rw [hsz]
    cases ulut with
    | false =>
      cases mode <;> try exact absurd rfl hm
      all_goals
        simp [lutEvents, ramEvents, refreshEvents, ctrl2Byte, dataAfter, beforeMA, isMA,
          List.takeWhile, DATA_ENTRY_MODE, SET_RAM_X_RANGE, SET_RAM_Y_RANGE,
          SET_RAM_X_COUNTER, SET_RAM_Y_COUNTER, WRITE_RAM_BW, WRITE_RAM_RED,
          DISPLAY_UPDATE_CTRL1, DISPLAY_UPDATE_CTRL2, MASTER_ACTIVATION, WRITE_LUT]
    | true =>
      cases mode <;> try exact absurd rfl hm
      all_goals
        simp [lutEvents, ramEvents, refreshEvents, ctrl2Byte, dataAfter, beforeMA, isMA,
          List.takeWhile, DATA_ENTRY_MODE, SET_RAM_X_RANGE, SET_RAM_Y_RANGE,
          SET_RAM_X_COUNTER, SET_RAM_Y_COUNTER, WRITE_RAM_BW, WRITE_RAM_RED,
          DISPLAY_UPDATE_CTRL1, DISPLAY_UPDATE_CTRL2, MASTER_ACTIVATION, WRITE_LUT]

/-- Witness for `update_no_red_slow_bypasses` at a concrete panel and
buffers. -/
theorem update_no_red_slow_bypasses_witness :
    (testConfig.dimensions.valid ∧ RefreshMode.Full ≠ RefreshMode.Fast ∧
      ((List.replicate 32 (0 : Nat)) = [] ∨ ∀ b ∈ List.replicate 32 (0 : Nat), b = 0) ∧
      testConfig.dimensions.buffer_size ≤ (List.replicate 32 (0xAA : Nat)).length) ∧
    dataAfter DISPLAY_UPDATE_CTRL1
        (update_with_mode_internal ⟨testConfig, false, []⟩ (List.replicate 32 0xAA)
          (List.replicate 32 0) RefreshMode.Full true).1.trace =
      [[CTRL1_BYPASS_RED]] :=
  ⟨⟨by decide, by decide, by decide, by decide⟩,
    (update_no_red_slow_bypasses testConfig false (List.replicate 32 0xAA)
      (List.replicate 32 0) RefreshMode.Full true (by decide) (by decide)
      (by decide) (by decide)).2.1⟩

/-- Single-buffer fast path properties for a region update: refresh with
planes active, no red write before master activation, one red write (the
black/white data) after it. -/
lemma fast_region_props (cfg : Config) (on0 : Bool) (ulut : Bool) (u : UpdateRegion)
    (hmode : u.mode = RefreshMode.Fast)
    (hred : u.red_buffer = [] ∨ ∀ b ∈ u.red_buffer, b = 0)
    (hb : u.region.buffer_size ≤ u.black_buffer.length)
    (hw : u.region.w ≠ 0) (hh : u.region.h ≠ 0)
    (hxw : u.region.x + u.region.w ≤ cfg.dimensions.cols)
    (hyh : u.region.y + u.region.h ≤ cfg.dimensions.rows)
    (hx8 : u.region.x % 8 = 0) (hw8 : u.region.w % 8 = 0) :
    (update_region_internal ⟨cfg, on0, []⟩ u ulut).2 = .ok () ∧
    dataAfter DISPLAY_UPDATE_CTRL1
        (update_region_internal ⟨cfg, on0, []⟩ u ulut).1.trace = [[CTRL1_NORMAL]] ∧
    dataAfter WRITE_RAM_RED
        (beforeMA (update_region_internal ⟨cfg, on0, []⟩ u ulut).1.trace) = [] ∧
    dataAfter WRITE_RAM_RED
        (afterMA (update_region_internal ⟨cfg, on0, []⟩ u ulut).1.trace) =
      [u.black_buffer.take u.region.buffer_size] := by
  rw [update_region_internal_fast ⟨cfg, on0, []⟩ u ulut (explicitRed_false hred) hmode
    hb hw hh (satAdd_le hxw) (satAdd_le hyh) hx8 hw8]
  rw [hmode]
  refine ⟨rfl, ?_, ?_, ?_⟩ <;>
  · show dataAfter _ _ = _
    cases ulut <;>
      simp [lutEvents, ramEvents, refreshEvents, ctrl2Byte, dataAfter, beforeMA, afterMA,
        isMA, List.takeWhile, List.dropWhile, DATA_ENTRY_MODE, SET_RAM_X_RANGE,
        SET_RAM_Y_RANGE, SET_RAM_X_COUNTER, SET_RAM_Y_COUNTER, WRITE_RAM_BW,
        WRITE_RAM_RED, DISPLAY_UPDATE_CTRL1, DISPLAY_UPDATE_CTRL2, MASTER_ACTIVATION,
        WRITE_LUT]

/-- C1 (amended): for every Fast-mode update (full-frame or region) whose
red buffer is empty or all-zero, the refresh uses the planes-active
control byte, the red plane is NOT written before the refresh trigger, and
after the trigger the window is re-programmed and the red plane written
once with the black/white contents. -/
theorem fast_no_red_single_buffer (cfg : Config) (on0 : Bool) (ulut : Bool)
    (hdims : cfg.dimensions.valid) :
    (∀ black red : List Nat, (red = [] ∨ ∀ b ∈ red, b = 0) →
      cfg.dimensions.buffer_size ≤ black.length →
      (update_with_mode_internal ⟨cfg, on0, []⟩ black red RefreshMode.Fast ulut).2 =
        .ok () ∧
      dataAfter DISPLAY_UPDATE_CTRL1
          (update_with_mode_internal ⟨cfg, on0, []⟩ black red RefreshMode.Fast
            ulut).1.trace = [[CTRL1_NORMAL]] ∧
      dataAfter WRITE_RAM_RED
          (beforeMA (update_with_mode_internal ⟨cfg, on0, []⟩ black red
            RefreshMode.Fast ulut).1.trace) = [] ∧
      dataAfter WRITE_RAM_RED
          (afterMA (update_with_mode_internal ⟨cfg, on0, []⟩ black red
            RefreshMode.Fast ulut).1.trace) =
        [black.take cfg.dimensions.buffer_size]) ∧
    (∀ u : UpdateRegion, u.mode = RefreshMode.Fast →
      (u.red_buffer = [] ∨ ∀ b ∈ u.red_buffer, b = 0) →
      u.region.buffer_size ≤ u.black_buffer.length →
      u.region.w ≠ 0 → u.region.h ≠ 0 →
      u.region.x + u.region.w ≤ cfg.dimensions.cols →
      u.region.y + u.region.h ≤ cfg.dimensions.rows →
      u.region.x % 8 = 0 → u.region.w % 8 = 0 →
      (update_region_internal ⟨cfg, on0, []⟩ u ulut).2 = .ok () ∧
      dataAfter DISPLAY_UPDATE_CTRL1
          (update_region_internal ⟨cfg, on0, []⟩ u ulut).1.trace = [[CTRL1_NORMAL]] ∧
      dataAfter WRITE_RAM_RED
          (beforeMA (update_region_internal ⟨cfg, on0, []⟩ u ulut).1.trace) = [] ∧
      dataAfter WRITE_RAM_RED
          (afterMA (update_region_internal ⟨cfg, on0, []⟩ u ulut).1.trace) =
        [u.black_buffer.take u.region.buffer_size]) := by
  obtain ⟨hr1, hr2, hc1, hc2, hc8⟩ := hdims
  have hsz := full_region_buffer_size cfg.dimensions hc8
  constructor
  · intro black red hred hb
    rw [full_as_region _ _ _ _ _ hc8]
    have hprops := fast_region_props cfg on0 ulut
      ⟨⟨0, 0, cfg.dimensions.cols, cfg.dimensions.rows⟩, black, red, RefreshMode.Fast⟩
      rfl hred
      (by show (Region.mk 0 0 cfg.dimensions.cols cfg.dimensions.rows).buffer_size ≤
            black.length
          rw [hsz]; exact hb)
      (by show cfg.dimensions.cols ≠ 0; omega)
      (by show cfg.dimensions.rows ≠ 0; omega)
      (show 0 + cfg.dimensions.cols ≤ cfg.dimensions.cols by omega)
      (show 0 + cfg.dimensions.rows ≤ cfg.dimensions.rows by omega)
      (by show 0 % 8 = 0; rfl)
      (by show cfg.dimensions.cols % 8 = 0; exact hc8)
    simpa [hsz] using hprops
  · intro u hmode hred hb hw hh hxw hyh hx8 hw8
    exact fast_region_props cfg on0 ulut u hmode hred hb hw hh hxw hyh hx8 hw8

/-- C1 counterexample: a concrete Fast-mode full-frame update with an
empty red buffer succeeds, yet NO red-plane write occurs before the
master-activation command — the black/white data is written to the red
plane only once, after the trigger — contradicting the claim that it is
written twice, once before and once after. -/
theorem fast_no_red_counterexample :
    (update_with_mode_internal ⟨testConfig, false, []⟩ (List.replicate 32 0xAA)
        [] RefreshMode.Fast true).2 = .ok () ∧
    dataAfter WRITE_RAM_RED
        (beforeMA (update_with_mode_internal ⟨testConfig, false, []⟩
          (List.replicate 32 0xAA) [] RefreshMode.Fast true).1.trace) = [] ∧
    dataAfter WRITE_RAM_RED
        (update_with_mode_internal ⟨testConfig, false, []⟩ (List.replicate 32 0xAA)
          [] RefreshMode.Fast true).1.trace =
      [List.replicate 32 0xAA] := by
  refine ⟨rfl, rfl, rfl⟩

/-- Witness for `fast_no_red_single_buffer` at a concrete panel and
buffers. -/
theorem fast_no_red_single_buffer_witness :
    (testConfig.dimensions.valid ∧
      (([] : List Nat) = [] ∨ ∀ b ∈ ([] : List Nat), b = 0) ∧
      testConfig.dimensions.buffer_size ≤ (List.replicate 32 (0xAA : Nat)).length) ∧
    dataAfter DISPLAY_UPDATE_CTRL1
        (update_with_mode_internal ⟨testConfig, false, []⟩ (List.replicate 32 0xAA)
          [] RefreshMode.Fast true).1.trace = [[CTRL1_NORMAL]] :=
  ⟨⟨by decide, Or.inl rfl, by decide⟩,
    ((fast_no_red_single_buffer testConfig false true (by decide)).1
      (List.replicate 32 0xAA) [] (Or.inl rfl) (by decide)).2.1⟩

/-- The driver's `(dem & 0x01) != 0` test is bit ID0 of the data-entry
mode byte. -/
lemma and1_bne_testBit (n : Nat) : (n &&& 1 != 0) = n.testBit 0 := by
  rw [Nat.and_one_is_mod, Nat.testBit_zero]
  rcases Nat.mod_two_eq_zero_or_one n with h | h <;> simp [h]

/-- The driver's `(dem & 0x02) != 0` test is bit ID1 of the data-entry
mode byte. -/
lemma and2_bne_testBit (n : Nat) : (n &&& 2 != 0) = n.testBit 1 := by
  have h := Nat.and_two_pow n 1
  cases hb : n.testBit 1 <;> rw [hb] at h <;> simp at h <;> simp [h]

/-- C2: for every region the RAM-window calculator accepts, the emitted X
range is `(x, x+w−1)` in pixel addressing or `(x/8, (x+w−1)/8)` in byte
addressing, swapped exactly when bit ID0 of the data-entry-mode byte is
clear (decrementing X direction); the Y range starts from
`base = rows − y − h` when Y is inverted (`base = y` otherwise), runs to
`base + h − 1`, swapped exactly when bit ID1 is clear (decrementing Y
direction); and the X/Y counters are set to the (possibly swapped) start
values. -/
theorem set_ram_area_window_spec (s : Display) (x y w h : Nat) (s' : Display)
    (heq : set_ram_area s x y w h = (s', .ok ())) :
    s'.trace = s.trace ++
      (let dem := s.config.data_entry_mode
       let xr : Nat × Nat := match s.config.ram_x_addressing with
         | .Pixels => (x, x + w - 1)
         | .Bytes => (x / 8, (x + w - 1) / 8)
       let xs := if dem.testBit 0 then xr.1 else xr.2
       let xe := if dem.testBit 0 then xr.2 else xr.1
       let base := if s.config.ram_y_inverted then s.config.dimensions.rows - y - h else y
       let ys := if dem.testBit 1 then base else base + h - 1
       let ye := if dem.testBit 1 then base + h - 1 else base
       [Event.cmd DATA_ENTRY_MODE, Event.data [dem],
        Event.cmd SET_RAM_X_RANGE,
        Event.data [xs % 256, xs / 256, xe % 256, xe / 256],
        Event.cmd SET_RAM_Y_RANGE,
        Event.data [ys % 256, ys / 256, ye % 256, ye / 256],
        Event.cmd SET_RAM_X_COUNTER, Event.data [xs % 256, xs / 256],
        Event.cmd SET_RAM_Y_COUNTER, Event.data [ys % 256, ys / 256]]) := by
  rw [set_ram_area] at heq
  split at heq
  · simp at heq
  · split at heq
    · simp at heq
    · split at heq
      · simp at heq
      · simp only [Prod.mk.injEq] at heq
        rw [← heq.1]
        cases haddr : s.config.ram_x_addressing <;>
          simp [sendCommand, sendData, haddr, and1_bne_testBit, and2_bne_testBit,
            List.append_assoc]

/-- Witness for `set_ram_area_window_spec` at the default configuration
(ID0 set: X ascending; ID1 clear: Y swapped) on a 16×16 panel. -/
theorem set_ram_area_window_spec_witness :
    set_ram_area (Display.new testConfig) 0 0 16 16 =
      ((set_ram_area (Display.new testConfig) 0 0 16 16).1, .ok ()) ∧
    (set_ram_area (Display.new testConfig) 0 0 16 16).1.trace =
      [Event.cmd DATA_ENTRY_MODE, Event.data [1],
       Event.cmd SET_RAM_X_RANGE, Event.data [0, 0, 15, 0],
       Event.cmd SET_RAM_Y_RANGE, Event.data [15, 0, 0, 0],
       Event.cmd SET_RAM_X_COUNTER, Event.data [0, 0],
       Event.cmd SET_RAM_Y_COUNTER, Event.data [15, 0]] :=
  ⟨rfl, set_ram_area_window_spec (Display.new testConfig) 0 0 16 16
    (set_ram_area (Display.new testConfig) 0 0 16 16).1 rfl⟩

/-- The per-mode update-control-2 base byte from the configuration. -/
def ctrl2Base (c : Config) : RefreshMode → Nat
  | .Full => c.display_update_ctrl2_full
  | .Partial => c.display_update_ctrl2_partial
  | .Fast => c.display_update_ctrl2_fast

/-- C9: the power flag is false at construction; every refresh that is not
a power-down sets it true, OR-ing the configured power-on bits into the
update-control-2 byte exactly when the flag was false beforehand; and
`deep_sleep` leaves the flag false, performing the power-down refresh
sequence first exactly when the flag was set. -/
theorem power_flag_lifecycle :
    (∀ cfg : Config, (Display.new cfg).is_display_on = false) ∧
    (∀ (s : Display) (mode : RefreshMode) (use_red : Bool),
      refresh_with_mode s mode false use_red =
        { s with is_display_on := true,
                 trace := s.trace ++
                   [Event.cmd DISPLAY_UPDATE_CTRL1,
                    Event.data [if use_red then CTRL1_NORMAL else CTRL1_BYPASS_RED],
                    Event.cmd DISPLAY_UPDATE_CTRL2,
                    Event.data [if s.is_display_on then ctrl2Base s.config mode
                      else ctrl2Base s.config mode ||| s.config.display_update_power_on],
                    Event.cmd MASTER_ACTIVATION] }) ∧
    (∀ (s : Display) (m : DeepSleepMode),
      (deep_sleep s m).is_display_on = false ∧
      (deep_sleep s m).trace = s.trace ++
        (if s.is_display_on then
          [Event.cmd DISPLAY_UPDATE_CTRL1, Event.data [CTRL1_BYPASS_RED],
           Event.cmd DISPLAY_UPDATE_CTRL2, Event.data [0x03],
           Event.cmd MASTER_ACTIVATION]
         else []) ++ [Event.cmd DEEP_SLEEP, Event.data [m.toByte]]) := by
  refine ⟨fun cfg => rfl, ?_, ?_⟩
  · intro s mode use_red
    rw [refresh_with_mode_eq]
    cases hOn : s.is_display_on <;> cases mode <;>
      simp [refreshEvents, ctrl2Byte, ctrl2Base, hOn]
  · intro s m
    cases hOn : s.is_display_on <;>
      simp [deep_sleep, sendCommand, sendData, hOn, List.append_assoc]

/-- C5 (amended): every update validates the black/white buffer against
the required size and validates the red buffer exactly when it is
explicit (non-empty with a non-zero byte); a short black buffer, or a
short explicit red buffer, fails with `BufferTooSmall` reporting the
exact required and provided lengths, before anything is sent. -/
theorem buffer_validation (s : Display) (black red : List Nat) (mode : RefreshMode)
    (ulut : Bool) (u : UpdateRegion) :
    (black.length < s.config.dimensions.buffer_size →
      update_with_mode_internal s black red mode ulut =
        (s, .error (.BufferTooSmall s.config.dimensions.buffer_size black.length))) ∧
    (¬black.length < s.config.dimensions.buffer_size →
      red ≠ [] → (∃ b ∈ red, b ≠ 0) →
      red.length < s.config.dimensions.buffer_size →
      update_with_mode_internal s black red mode ulut =
        (s, .error (.BufferTooSmall s.config.dimensions.buffer_size red.length))) ∧
    (u.black_buffer.length < u.region.buffer_size →
      update_region_internal s u ulut =
        (s, .error (.BufferTooSmall u.region.buffer_size u.black_buffer.length))) ∧
    (¬u.black_buffer.length < u.region.buffer_size →
      u.red_buffer ≠ [] → (∃ b ∈ u.red_buffer, b ≠ 0) →
      u.red_buffer.length < u.region.buffer_size →
      update_region_internal s u ulut =
        (s, .error (.BufferTooSmall u.region.buffer_size u.red_buffer.length))) := by
  refine ⟨?_, ?_, ?_, ?_⟩
  · intro h1
    rw [update_with_mode_internal, if_pos h1]
  · intro h1 h2 h3 h4
    rw [update_with_mode_internal, if_neg h1,
      if_pos ⟨explicitRed_true h2 h3, h4⟩]
  · intro h1
    rw [update_region_internal, if_pos h1]
  · intro h1 h2 h3 h4
    rw [update_region_internal, if_neg h1,
      if_pos ⟨explicitRed_true h2 h3, h4⟩]

/-- C5 counterexample: a region update whose red buffer is shorter than
the region's required byte count but all-zero is NOT rejected — the call
succeeds, so the red buffer is not unconditionally validated. -/
theorem short_allzero_red_succeeds :
    ([(0 : Nat)].length < (Region.mk 0 0 8 2).buffer_size) ∧
    (update_region_internal ⟨testConfig, false, []⟩
        ⟨⟨0, 0, 8, 2⟩, [0, 0], [0], RefreshMode.Full⟩ true).2 = .ok () := by
  exact ⟨by decide, rfl⟩

/-- Witness for `buffer_validation` at a concrete short black buffer. -/
theorem buffer_validation_witness :
    ([(42 : Nat)].length < (Region.mk 0 0 8 2).buffer_size) ∧
    update_region_internal ⟨testConfig, false, []⟩
        ⟨⟨0, 0, 8, 2⟩, [42], [], RefreshMode.Full⟩ true =
      (⟨testConfig, false, []⟩,
        .error (.BufferTooSmall (Region.mk 0 0 8 2).buffer_size 1)) :=
  ⟨by decide,
    (buffer_validation ⟨testConfig, false, []⟩ [] [] RefreshMode.Full true
      ⟨⟨0, 0, 8, 2⟩, [42], [], RefreshMode.Full⟩).2.2.1 (by decide)⟩

/-- An invalid region makes `set_ram_area` fail with `InvalidRamArea`,
sending nothing. -/
lemma set_ram_area_fail (s : Display) (x y w h : Nat)
    (hbad : ¬(w ≠ 0 ∧ h ≠ 0 ∧ satAdd x w ≤ s.config.dimensions.cols ∧
      satAdd y h ≤ s.config.dimensions.rows ∧ x % 8 = 0 ∧ w % 8 = 0)) :
    set_ram_area s x y w h = (s, .error (.InvalidRamArea x y w h)) := by
  rw [set_ram_area]
  by_cases h1 : w = 0 ∨ h = 0
  · rw [if_pos h1]
  · rw [if_neg h1]
    by_cases h2 : satAdd x w > s.config.dimensions.cols ∨
        satAdd y h > s.config.dimensions.rows
    · rw [if_pos h2]
    · rw [if_neg h2]
      rw [if_pos (by omega)]

/-- Every outcome of `update_region_internal`: success, a pre-transmission
`BufferTooSmall` failure, or an `InvalidRamArea` failure issued after
exactly the (possibly empty) waveform-table load. -/
lemma update_region_outcome (s : Display) (u : UpdateRegion) (ulut : Bool) :
    (update_region_internal s u ulut).2 = .ok () ∨
    update_region_internal s u ulut =
      (s, .error (.BufferTooSmall u.region.buffer_size u.black_buffer.length)) ∨
    update_region_internal s u ulut =
      (s, .error (.BufferTooSmall u.region.buffer_size u.red_buffer.length)) ∨
    update_region_internal s u ulut =
      ({ s with trace := s.trace ++ lutEvents ulut u.mode },
        .error (.InvalidRamArea u.region.x u.region.y u.region.w u.region.h)) := by
  by_cases h1 : u.black_buffer.length < u.region.buffer_size
  · right; left
    rw [update_region_internal, if_pos h1]
  · by_cases h2 : (!u.red_buffer.isEmpty && u.red_buffer.any fun b => b != 0) = true ∧
        u.red_buffer.length < u.region.buffer_size
    · right; right; left
      rw [update_region_internal, if_neg h1, if_pos h2]
    · by_cases h3 : u.region.w ≠ 0 ∧ u.region.h ≠ 0 ∧
          satAdd u.region.x u.region.w ≤ s.config.dimensions.cols ∧
          satAdd u.region.y u.region.h ≤ s.config.dimensions.rows ∧
          u.region.x % 8 = 0 ∧ u.region.w % 8 = 0
      · left
        obtain ⟨hw, hh2, hxw, hyh, hx8, hw8⟩ := h3
        have hb : u.region.buffer_size ≤ u.black_buffer.length := by omega
        cases hes : (!u.red_buffer.isEmpty && u.red_buffer.any fun b => b != 0) with
        | false =>
          cases hmode : u.mode == RefreshMode.Fast with
          | false =>
            rw [update_region_internal_slow s u ulut hes hmode hb hw hh2 hxw hyh hx8 hw8]
          | true =>
            rw [update_region_internal_fast s u ulut hes (by simpa using hmode) hb hw
              hh2 hxw hyh hx8 hw8]
        | true =>
          have hr : u.region.buffer_size ≤ u.red_buffer.length := by
            by_contra hcon
            exact h2 ⟨hes, by omega⟩
          rw [update_region_internal_explicit s u ulut hes hb hr hw hh2 hxw hyh hx8 hw8]
      · right; right; right
        rw [update_region_internal, if_neg h1, if_neg h2, lutStep_ok]
        simp only [bindR]
        rw [set_ram_area_fail ⟨s.config, s.is_display_on, s.trace ++ lutEvents ulut u.mode⟩
          u.region.x u.region.y u.region.w u.region.h h3]

/-- Every outcome of `update_with_mode_internal`: success, a
pre-transmission `BufferTooSmall` failure, or an `InvalidRamArea` failure
issued after exactly the (possibly empty) waveform-table load. -/
lemma update_full_outcome (s : Display) (black red : List Nat) (mode : RefreshMode)
    (ulut : Bool) :
    (update_with_mode_internal s black red mode ulut).2 = .ok () ∨
    update_with_mode_internal s black red mode ulut =
      (s, .error (.BufferTooSmall s.config.dimensions.buffer_size black.length)) ∨
    update_with_mode_internal s black red mode ulut =
      (s, .error (.BufferTooSmall s.config.dimensions.buffer_size red.length)) ∨
    update_with_mode_internal s black red mode ulut =
      ({ s with trace := s.trace ++ lutEvents ulut mode },
        .error (.InvalidRamArea 0 0 s.config.dimensions.cols
          s.config.dimensions.rows)) := by
  by_cases h1 : black.length < s.config.dimensions.buffer_size
  · right; left
    rw [update_with_mode_internal, if_pos h1]
  · by_cases h2 : (!red.isEmpty && red.any fun b => b != 0) = true ∧
        red.length < s.config.dimensions.buffer_size
    · right; right; left
      rw [update_with_mode_internal, if_neg h1, if_pos h2]
    · by_cases h3 : s.config.dimensions.cols ≠ 0 ∧ s.config.dimensions.rows ≠ 0 ∧
          satAdd 0 s.config.dimensions.cols ≤ s.config.dimensions.cols ∧
          satAdd 0 s.config.dimensions.rows ≤ s.config.dimensions.rows ∧
          (0 : Nat) % 8 = 0 ∧ s.config.dimensions.cols % 8 = 0
      · left
        obtain ⟨hw, hh2, hxw, hyh, hx8, hw8⟩ := h3
        have hsz := full_region_buffer_size s.config.dimensions hw8
        rw [full_as_region _ _ _ _ _ hw8]
        have hb : (Region.mk 0 0 s.config.dimensions.cols
            s.config.dimensions.rows).buffer_size ≤ black.length := by
          rw [hsz]; omega
        cases hes : (!red.isEmpty && red.any fun b => b != 0) with
        | false =>
          cases hmode : mode == RefreshMode.Fast with
          | false =>
            rw [update_region_internal_slow s
              ⟨⟨0, 0, s.config.dimensions.cols, s.config.dimensions.rows⟩,
                black, red, mode⟩ ulut hes hmode hb hw hh2 hxw hyh hx8 hw8]
          | true =>
            rw [update_region_internal_fast s
              ⟨⟨0, 0, s.config.dimensions.cols, s.config.dimensions.rows⟩,
                black, red, mode⟩ ulut hes (by simpa using hmode) hb hw hh2 hxw hyh
              hx8 hw8]
        | true =>
          have hr : (Region.mk 0 0 s.config.dimensions.cols
              s.config.dimensions.rows).buffer_size ≤ red.length := by
            rw [hsz]
            by_contra hcon
            exact h2 ⟨hes, by omega⟩
          rw [update_region_internal_explicit s
            ⟨⟨0, 0, s.config.dimensions.cols, s.config.dimensions.rows⟩,
              black, red, mode⟩ ulut hes hb hr hw hh2 hxw hyh hx8 hw8]
      · right; right; right
        rw [update_with_mode_internal, if_neg h1, if_neg h2, lutStep_ok]
        simp only [bindR]
        rw [set_ram_area_fail ⟨s.config, s.is_display_on, s.trace ++ lutEvents ulut mode⟩
          0 0 s.config.dimensions.cols s.config.dimensions.rows h3]

/-- Without a built-in table load (no-LUT variants or Full mode) the
waveform-load event list is empty. -/
lemma lutEvents_nil {ulut : Bool} {mode : RefreshMode}
    (h : ulut = false ∨ mode = RefreshMode.Full) : lutEvents ulut mode = [] := by
  rcases h with rfl | rfl
  · rfl
  · cases ulut <;> rfl

/-- A table of the chip-mandated length makes `load_lut` succeed, sending
exactly the `WRITE_LUT` command followed by the table bytes. -/
lemma load_lut_ok (s : Display) (lut : List Nat) (hlen : lut.length = LUT_SIZE) :
    load_lut s lut =
      ({ s with trace := s.trace ++ [Event.cmd WRITE_LUT, Event.data lut] }, .ok ()) := by
  rw [load_lut, if_neg (by omega)]
  simp [sendCommand, sendData, List.append_assoc]

/-- A `BufferTooSmall` failure of the region update leaves the device
state unchanged: both buffer-size checks precede every transmission. -/
lemma region_buffer_error_unchanged (s : Display) (u : UpdateRegion) (ulut : Bool)
    (s' : Display) (r p : Nat)
    (heq : update_region_internal s u ulut = (s', .error (.BufferTooSmall r p))) :
    s' = s := by
  rcases update_region_outcome s u ulut with hc | hc | hc | hc
  · rw [heq] at hc; simp at hc
  · rw [hc] at heq; simp only [Prod.mk.injEq] at heq; exact heq.1.symm
  · rw [hc] at heq; simp only [Prod.mk.injEq] at heq; exact heq.1.symm
  · rw [hc] at heq; simp only [Prod.mk.injEq] at heq
    exact absurd heq.2 (by simp)

/-- A `BufferTooSmall` failure of the full-frame update leaves the device
state unchanged. -/
lemma full_buffer_error_unchanged (s : Display) (black red : List Nat)
    (mode : RefreshMode) (ulut : Bool) (s' : Display) (r p : Nat)
    (heq : update_with_mode_internal s black red mode ulut =
      (s', .error (.BufferTooSmall r p))) : s' = s := by
  rcases update_full_outcome s black red mode ulut with hc | hc | hc | hc
  · rw [heq] at hc; simp at hc
  · rw [hc] at heq; simp only [Prod.mk.injEq] at heq; exact heq.1.symm
  · rw [hc] at heq; simp only [Prod.mk.injEq] at heq; exact heq.1.symm
  · rw [hc] at heq; simp only [Prod.mk.injEq] at heq
    exact absurd heq.2 (by simp)

/-- Without a built-in table load (no-LUT variants or Full mode) every
validation error of the region update leaves the device state unchanged. -/
lemma region_nolut_error_unchanged (s : Display) (u : UpdateRegion) (ulut : Bool)
    (s' : Display) (e : Err) (hnil : ulut = false ∨ u.mode = RefreshMode.Full)
    (heq : update_region_internal s u ulut = (s', .error e)) : s' = s := by
  rcases update_region_outcome s u ulut with hc | hc | hc | hc
  · rw [heq] at hc; simp at hc
  · rw [hc] at heq; simp only [Prod.mk.injEq] at heq; exact heq.1.symm
  · rw [hc] at heq; simp only [Prod.mk.injEq] at heq; exact heq.1.symm
  · rw [hc] at heq; simp only [Prod.mk.injEq] at heq
    rw [← heq.1, lutEvents_nil hnil]
    simp

/-- Without a built-in table load (no-LUT variants or Full mode) every
validation error of the full-frame update leaves the device state
unchanged. -/
lemma full_nolut_error_unchanged (s : Display) (black red : List Nat)
    (mode : RefreshMode) (ulut : Bool) (s' : Display) (e : Err)
    (hnil : ulut = false ∨ mode = RefreshMode.Full)
    (heq : update_with_mode_internal s black red mode ulut = (s', .error e)) :
    s' = s := by
  rcases update_full_outcome s black red mode ulut with hc | hc | hc | hc
  · rw [heq] at hc; simp at hc
  · rw [hc] at heq; simp only [Prod.mk.injEq] at heq; exact heq.1.symm
  · rw [hc] at heq; simp only [Prod.mk.injEq] at heq; exact heq.1.symm
  · rw [hc] at heq; simp only [Prod.mk.injEq] at heq
    rw [← heq.1, lutEvents_nil hnil]
    simp

/-- C4 (amended): `set_ram_area` and `load_lut` reject before anything is
sent.  In the standard update entry points (modelled by the two
internals), a `BufferTooSmall` failure always leaves the device state
unchanged; every validation error leaves it unchanged when no waveform
table is loaded (no-LUT variants or Full mode); and in general any
validation error leaves at most the built-in waveform-load bytes sent —
no RAM-window, pixel or refresh bytes are ever transmitted before a
validation failure.  In the custom-LUT variants a wrong-length table is
rejected before any byte, but a valid table is loaded before the buffer
and region checks, so any validation failure there leaves exactly the
`WRITE_LUT` command and the table bytes on the wire. -/
theorem validation_before_io :
    (∀ (s : Display) (x y w h : Nat) (s' : Display) (e : Err),
      set_ram_area s x y w h = (s', .error e) → s' = s) ∧
    (∀ (s : Display) (lut : List Nat) (s' : Display) (e : Err),
      load_lut s lut = (s', .error e) → s' = s) ∧
    (∀ (s : Display) (u : UpdateRegion) (ulut : Bool) (s' : Display) (r p : Nat),
      update_region_internal s u ulut = (s', .error (.BufferTooSmall r p)) → s' = s) ∧
    (∀ (s : Display) (black red : List Nat) (mode : RefreshMode) (ulut : Bool)
        (s' : Display) (r p : Nat),
      update_with_mode_internal s black red mode ulut =
        (s', .error (.BufferTooSmall r p)) → s' = s) ∧
    (∀ (s : Display) (u : UpdateRegion) (ulut : Bool) (s' : Display) (e : Err),
      (ulut = false ∨ u.mode = RefreshMode.Full) →
      update_region_internal s u ulut = (s', .error e) → s' = s) ∧
    (∀ (s : Display) (black red : List Nat) (mode : RefreshMode) (ulut : Bool)
        (s' : Display) (e : Err),
      (ulut = false ∨ mode = RefreshMode.Full) →
      update_with_mode_internal s black red mode ulut = (s', .error e) → s' = s) ∧
    (∀ (s : Display) (u : UpdateRegion) (ulut : Bool) (s' : Display) (e : Err),
      update_region_internal s u ulut = (s', .error e) →
      s' = s ∨ s' = { s with trace := s.trace ++ lutEvents ulut u.mode }) ∧
    (∀ (s : Display) (black red : List Nat) (mode : RefreshMode) (ulut : Bool)
        (s' : Display) (e : Err),
      update_with_mode_internal s black red mode ulut = (s', .error e) →
      s' = s ∨ s' = { s with trace := s.trace ++ lutEvents ulut mode }) ∧
    (∀ (s : Display) (u : UpdateRegion) (lut : List Nat),
      lut.length ≠ LUT_SIZE →
      update_region_with_custom_lut s u lut =
        (s, .error (.InvalidLutLength LUT_SIZE lut.length))) ∧
    (∀ (s : Display) (black red : List Nat) (mode : RefreshMode) (lut : List Nat),
      lut.length ≠ LUT_SIZE →
      update_with_custom_lut s black red mode lut =
        (s, .error (.InvalidLutLength LUT_SIZE lut.length))) ∧
    (∀ (s : Display) (u : UpdateRegion) (lut : List Nat) (s' : Display) (e : Err),
      lut.length = LUT_SIZE →
      update_region_with_custom_lut s u lut = (s', .error e) →
      s'.trace = s.trace ++ [Event.cmd WRITE_LUT, Event.data lut]) ∧
    (∀ (s : Display) (black red : List Nat) (mode : RefreshMode) (lut : List Nat)
        (s' : Display) (e : Err),
      lut.length = LUT_SIZE →
      update_with_custom_lut s black red mode lut = (s', .error e) →
      s'.trace = s.trace ++ [Event.cmd WRITE_LUT, Event.data lut]) := by
  refine ⟨set_ram_area_error, load_lut_error, region_buffer_error_unchanged,
    full_buffer_error_unchanged, region_nolut_error_unchanged,
    full_nolut_error_unchanged, ?_, ?_, ?_, ?_, ?_, ?_⟩
  · intro s u ulut s' e heq
    rcases update_region_outcome s u ulut with hc | hc | hc | hc
    · rw [heq] at hc; simp at hc
    · rw [hc] at heq; simp only [Prod.mk.injEq] at heq; exact Or.inl heq.1.symm
    · rw [hc] at heq; simp only [Prod.mk.injEq] at heq; exact Or.inl heq.1.symm
    · rw [hc] at heq; simp only [Prod.mk.injEq] at heq; exact Or.inr heq.1.symm
  · intro s black red mode ulut s' e heq
    rcases update_full_outcome s black red mode ulut with hc | hc | hc | hc
    · rw [heq] at hc; simp at hc
    · rw [hc] at heq; simp only [Prod.mk.injEq] at heq; exact Or.inl heq.1.symm
    · rw [hc] at heq; simp only [Prod.mk.injEq] at heq; exact Or.inl heq.1.symm
    · rw [hc] at heq; simp only [Prod.mk.injEq] at heq; exact Or.inr heq.1.symm
  · intro s u lut hbad
    rw [update_region_with_custom_lut, load_lut, if_pos hbad]
    rfl
  · intro s black red mode lut hbad
    rw [update_with_custom_lut, load_lut, if_pos hbad]
    rfl
  · intro s u lut s' e hlen heq
    rw [update_region_with_custom_lut, load_lut_ok s lut hlen] at heq
    simp only [bindR] at heq
    rcases update_region_outcome
        ⟨s.config, s.is_display_on, s.trace ++ [Event.cmd WRITE_LUT, Event.data lut]⟩
        u false with hc | hc | hc | hc
    · rw [heq] at hc; simp at hc
    · rw [hc] at heq; simp only [Prod.mk.injEq] at heq; rw [← heq.1]
    · rw [hc] at heq; simp only [Prod.mk.injEq] at heq; rw [← heq.1]
    · rw [hc] at heq; simp only [Prod.mk.injEq] at heq
      rw [← heq.1, lutEvents_nil (Or.inl rfl)]
      simp
  · intro s black red mode lut s' e hlen heq
    rw [update_with_custom_lut, load_lut_ok s lut hlen] at heq
    simp only [bindR] at heq
    rcases update_full_outcome
        ⟨s.config, s.is_display_on, s.trace ++ [Event.cmd WRITE_LUT, Event.data lut]⟩
        black red mode false with hc | hc | hc | hc
    · rw [heq] at hc; simp at hc
    · rw [hc] at heq; simp only [Prod.mk.injEq] at heq; rw [← heq.1]
    · rw [hc] at heq; simp only [Prod.mk.injEq] at heq; rw [← heq.1]
    · rw [hc] at heq; simp only [Prod.mk.injEq] at heq
      rw [← heq.1, lutEvents_nil (Or.inl rfl)]
      simp

/-- C4 counterexample: a region update in Partial mode with the built-in
waveform load and an out-of-bounds region returns the `InvalidRamArea`
validation error only AFTER the 113 waveform-table bytes were sent — a
validation error that does leave bytes on the wire. -/
theorem region_error_after_lut_bytes :
    (update_region_internal ⟨testConfig, false, []⟩
        ⟨⟨0, 0, 24, 1⟩, [0, 0, 0], [], RefreshMode.Partial⟩ true).2 =
      .error (.InvalidRamArea 0 0 24 1) ∧
    (update_region_internal ⟨testConfig, false, []⟩
        ⟨⟨0, 0, 24, 1⟩, [0, 0, 0], [], RefreshMode.Partial⟩ true).1.trace =
      [Event.cmd WRITE_LUT, Event.data LUT_PARTIAL] :=
  ⟨rfl, rfl⟩

/-- Witness for `validation_before_io` at a concrete short buffer. -/
theorem validation_before_io_witness :
    update_region_internal ⟨testConfig, false, []⟩
        ⟨⟨0, 0, 8, 2⟩, [7], [], RefreshMode.Fast⟩ true =
      ((update_region_internal ⟨testConfig, false, []⟩
          ⟨⟨0, 0, 8, 2⟩, [7], [], RefreshMode.Fast⟩ true).1,
        .error (.BufferTooSmall 2 1)) ∧
    (update_region_internal ⟨testConfig, false, []⟩
        ⟨⟨0, 0, 8, 2⟩, [7], [], RefreshMode.Fast⟩ true).1 =
      ⟨testConfig, false, []⟩ :=
  ⟨rfl, validation_before_io.2.2.1 ⟨testConfig, false, []⟩
    ⟨⟨0, 0, 8, 2⟩, [7], [], RefreshMode.Fast⟩ true _ 2 1 rfl⟩

/-- C10: with equally sized buffers, every buffer-mutating operation of
the graphics wrapper — `clear` to any color, `set_pixel` with any color,
and `draw_iter` over any pixel list — preserves the invariant that every
bit set in the red buffer is also set at the same byte index and bit
position in the black/white buffer. -/
theorem graphics_red_subset_invariant (gd : GraphicDisplay) (c : Color) (x y : Nat)
    (ps : List (Int × Int × Color))
    (hlen : gd.red_buffer.length = gd.black_buffer.length)
    (hinv : redSubsetBw gd) :
    redSubsetBw (gd.clear c) ∧ redSubsetBw (gd.set_pixel x y c) ∧
      redSubsetBw (gd.draw_iter ps) :=
  ⟨(clear_preserves gd c hlen hinv).2, (set_pixel_preserves gd x y c hlen hinv).2,
    (draw_iter_preserves ps gd hlen hinv).2⟩

/-- Witness for `graphics_red_subset_invariant` at concrete buffers. -/
theorem graphics_red_subset_invariant_witness :
    ((⟨Display.new testConfig, [0xFF, 0x0F], [0x81, 0x01]⟩ :
        GraphicDisplay).red_buffer.length =
      (⟨Display.new testConfig, [0xFF, 0x0F], [0x81, 0x01]⟩ :
        GraphicDisplay).black_buffer.length ∧
      redSubsetBw ⟨Display.new testConfig, [0xFF, 0x0F], [0x81, 0x01]⟩) ∧
    redSubsetBw ((⟨Display.new testConfig, [0xFF, 0x0F], [0x81, 0x01]⟩ :
      GraphicDisplay).clear .Red) :=
  ⟨⟨rfl, by decide⟩,
    (graphics_red_subset_invariant ⟨Display.new testConfig, [0xFF, 0x0F], [0x81, 0x01]⟩
      Color.Red 0 0 [] rfl (by decide)).1⟩
